import Mathlib

/-!
Verification development for the visit_struct library: a shallow embedding of
its field-registration and compile-time visitation machinery, together with
theorems settling the specified properties.

The embedding models:
- C++ value categories and const qualification of a struct instance (Qual);
- a symbolic grammar of the C++ types that matter here (CppType) and the
  result type of a member accessor under each qualification, following the
  rules spelled out in the comment block of visit_struct_boost_hana.hpp;
- the member-type inference accessor_value_type of the hana backend;
- the preprocessor MAP expansion of visit_struct.hpp (external strategy);
- the Rank overload-resolution accumulation of visit_struct_intrusive.hpp
  (intrusive strategy), including max_visitable_members_intrusive;
- the index-based sequence visitation of the boost_fusion and boost_hana
  backends (adaptation strategy);
- the visitable trait record and the free-function entry points.

Visitation is modelled by traces: each visitation operation returns the list
of visitor invocations, each invocation being the pair (name, payload) the
visitor would receive, in the order the C++ code performs the calls. A none
result models a compile failure (ill-formed expansion or missing overload).
-/

namespace VisitStruct

/-- Qualification of a struct reference: mutable lvalue, const lvalue, rvalue. -/
inductive Qual where
  | mlval : Qual
  | clval : Qual
  | rval : Qual
deriving DecidableEq, Repr

/-- Symbolic C++ types, as far as the library distinguishes them: a named
object type, a const-qualified type, an lvalue reference, an rvalue reference. -/
inductive CppType where
  | base : String → CppType
  | const : CppType → CppType
  | lref : CppType → CppType
  | rref : CppType → CppType
deriving DecidableEq, Repr

/-- std::remove_reference. -/
def removeReference : CppType → CppType
  | .lref t => t
  | .rref t => t
  | t => t

/-- Member types a struct field can be declared with in this development:
an ordinary object type, a const object type, or an lvalue reference. -/
def validMemberType : CppType → Prop
  | .base _ => True
  | .const (.base _) => True
  | .lref (.base _) => True
  | .lref (.const (.base _)) => True
  | _ => False

instance (t : CppType) : Decidable (validMemberType t) := by
  unfold validMemberType
  cases t with
  | base n => exact inferInstanceAs (Decidable True)
  | const t => cases t <;> simp <;> infer_instance
  | lref t =>
      cases t with
      | base n => exact inferInstanceAs (Decidable True)
      | const t => cases t <;> simp <;> infer_instance
      | lref t => exact inferInstanceAs (Decidable False)
      | rref t => exact inferInstanceAs (Decidable False)
  | rref t => exact inferInstanceAs (Decidable False)

/-- Result type of invoking the member accessor for a member declared with
type m on a container of qualification q. These are the rules documented in
visit_struct_boost_hana.hpp lines 19 to 52: for a pointer to member T S::*
the accessor maps S& to T&, const S& to const T&, S&& to T&&; when the member
type is itself a reference, the container qualification does not matter; when
the member type is const T, the results are const T&, const T&, const T&&. -/
def accessorResult (m : CppType) (q : Qual) : CppType :=
  match m with
  | .lref t => .lref t
  | .rref t => .rref t
  | .const t =>
      match q with
      | .mlval => .lref (.const t)
      | .clval => .lref (.const t)
      | .rval => .rref (.const t)
  | .base b =>
      match q with
      | .mlval => .lref (.base b)
      | .clval => .lref (.const (.base b))
      | .rval => .rref (.base b)

/-- Source embedding of accessor_value_type from visit_struct_boost_hana.hpp
lines 60 to 68: test1 probes the accessor on S& (mutable lvalue), test2 probes
it on S&& (rvalue); if the two result types are the same, that is the value
type, otherwise it is test1 with its reference removed. -/
def accessor_value_type (m : CppType) : CppType :=
  let test1 := accessorResult m .mlval
  let test2 := accessorResult m .rval
  if test1 = test2 then test1 else removeReference test1

/-- Modelled from the spec: the inference procedure as the specification
describes it, with the second probe performed on a const container rather
than on an rvalue container. Written only to be compared with the source
definition accessor_value_type. -/
def accessor_value_type_specModel (m : CppType) : CppType :=
  let test1 := accessorResult m .mlval
  let test2 := accessorResult m .clval
  if test1 = test2 then test1 else removeReference test1

/-- What a visitor receives in place of a field during instance visitation:
a reference of the matching kind to the storage of the member at a given
index of the instance, carrying the value currently stored there. -/
inductive FieldRef (α : Type) where
  | mutRef : Nat → α → FieldRef α
  | constRef : Nat → α → FieldRef α
  | rvalRef : Nat → α → FieldRef α
deriving DecidableEq, Repr

/-- Build the field reference matching a container qualification; this is the
embedding of member access through a pointer to member on a forwarded
instance, and of the three overloads generated by VISITABLE_STRUCT. -/
def qualRef (q : Qual) {α : Type} (i : Nat) (v : α) : FieldRef α :=
  match q with
  | .mlval => .mutRef i v
  | .clval => .constRef i v
  | .rval => .rvalRef i v

/-- Storage index a field reference designates. -/
def FieldRef.idx {α : Type} : FieldRef α → Nat
  | .mutRef i _ => i
  | .constRef i _ => i
  | .rvalRef i _ => i

/-- Value read through a field reference. -/
def FieldRef.val {α : Type} : FieldRef α → α
  | .mutRef _ v => v
  | .constRef _ v => v
  | .rvalRef _ v => v

/-- Declaration of a struct type: its members in physical declaration order,
each with its name and declared type. -/
structure StructType where
  members : List (String × CppType)
deriving DecidableEq, Repr

/-- An instance of a struct: the values stored in its members, listed in
member declaration order. Field i of the struct lives at position i. -/
structure Instance (α : Type) where
  vals : List α
deriving DecidableEq, Repr

/-- Read the storage of member i. -/
def getVal {α : Type} (s : Instance α) (i : Nat) : Option α :=
  s.vals.get? i

/-- Write the storage of member i; this is the effect of a mutation performed
through a mutable reference to that member, and equally of an ordinary member
assignment, since both denote the same storage. -/
def setVal {α : Type} (s : Instance α) (i : Nat) (v : α) : Instance α :=
  ⟨s.vals.set i v⟩

/-- Index of the member with a given name in a struct declaration; none when
no such member exists, in which case naming it is a compile failure. -/
def memberIdx (S : StructType) (n : String) : Option Nat :=
  S.members.findIdx? (fun p => p.1 = n)

/-- Declared type of member i. -/
def memberType (S : StructType) (i : Nat) : Option CppType :=
  (S.members.get? i).map Prod.snd

/-!
External strategy: the preprocessor MAP of visit_struct.hpp lines 68 to 85.

VISIT_STRUCT_PP_MAP(f, args...) evaluates VISIT_STRUCT_PP_MAP1 on the token
stream args..., (), 0. The MAP1 and MAP0 steps each consume one argument x,
unconditionally emit f(x), peek at the next token, and stop when the peeked
token is the () end marker, otherwise recurse on the remaining stream. When
the registration statement lists no field name at all, the variadic argument
list consists of a single empty token, which stringifies to the empty string.
-/

/-- One token of the preprocessor argument stream. -/
inductive PPToken where
  | ident : String → PPToken
  | parens : PPToken
  | zero : PPToken
deriving DecidableEq, Repr

/-- Text an argument token contributes when stringified and when used as a
member name; only ident tokens are ever consumed as arguments here. -/
def PPToken.text : PPToken → String
  | .ident s => s
  | .parens => "()"
  | .zero => "0"

/-- The recursion shared by VISIT_STRUCT_PP_MAP1 and VISIT_STRUCT_PP_MAP0:
emit f on the current argument, stop if the peeked token is the () marker,
otherwise continue. The two macros alternate only to permit reexpansion; the
emitted sequence is the one modelled here. -/
def ppMap1 {α : Type} (f : String → α) : List PPToken → List α
  | x :: peek :: rest =>
      f x.text :: (if peek = PPToken.parens then [] else ppMap1 f (peek :: rest))
  | _ => []

/-- Token stream VISIT_STRUCT_PP_MAP builds from the macro arguments: the
arguments themselves followed by the () end marker and a trailing 0; an empty
argument list arrives as one empty token. -/
def ppStream (args : List String) : List PPToken :=
  (if args.isEmpty then [PPToken.ident ""] else args.map PPToken.ident)
    ++ [PPToken.parens, PPToken.zero]

/-- Names on which the member helper is invoked, in emission order, when
VISIT_STRUCT_PP_MAP is applied to the given argument list. -/
def ppExpandedNames (args : List String) : List String :=
  ppMap1 (fun s => s) (ppStream args)

/-- The apply overloads generated by VISITABLE_STRUCT, lines 100 to 129 of
visit_struct.hpp: for each expanded name the member helper performs
visitor(#NAME, struct_instance.NAME) - under the rvalue overload
visitor(#NAME, std::move(struct_instance.NAME)) - so each emitted call
resolves the name in the struct declaration and accesses that member storage
with the qualification of the overload. A name that resolves to no member,
in particular the empty token of an empty registration, is ill-formed. -/
def externalApply {α : Type} (S : StructType) (names : List String) (q : Qual)
    (s : Instance α) : Option (List (String × FieldRef α)) :=
  (ppExpandedNames names).mapM fun n =>
    (memberIdx S n).bind fun i => (getVal s i).map fun v => (n, qualRef q i v)

/-- Modelled from the spec: the binary apply overloads of the external
strategy. The registration macro of this snapshot of visit_struct.hpp only
generates the single-instance overloads; the two-instance form called by the
test suite forwards both instances and passes, per field, the name and the
correspondingly qualified access into each instance. -/
def externalApply2 {α : Type} (S : StructType) (names : List String)
    (qa : Qual) (sa : Instance α) (qb : Qual) (sb : Instance α) :
    Option (List (String × FieldRef α × FieldRef α)) :=
  (ppExpandedNames names).mapM fun n =>
    (memberIdx S n).bind fun i =>
      (getVal sa i).bind fun va =>
        (getVal sb i).map fun vb => (n, qualRef qa i va, qualRef qb i vb)

/-!
Intrusive strategy: visit_struct_intrusive.hpp.

Each VISITABLE(TYPE, NAME) declaration both declares the member and derives a
record from member_ptr_helper capturing the member name, the declared type
and the pointer to member; the pointer to member is embedded here as the
position of the member among the declared members. The registered list is
accumulated through overloads of Visit_Struct_Get_Visitables__ on Rank tags,
and read back by resolving the call at Rank of
max_visitable_members_intrusive.
-/

/-- Record produced for one VISITABLE declaration, after member_ptr_helper:
the member name as a string literal, the declared value_type, and the pointer
to member, embedded as the member position. -/
structure Member where
  member_name : String
  value_type : CppType
  ptrIdx : Nat
deriving DecidableEq, Repr

/-- visit_struct_intrusive.hpp line 100. -/
def max_visitable_members_intrusive : Nat := 100

/-- State of the growing struct body between the begin and end markers: the
struct name captured by BEGIN_VISITABLES, the number of members declared so
far, the names of the members declared so far - each VISITABLE emits an
actual member declaration TYPE NAME; into the struct body - and the declared
overloads of Visit_Struct_Get_Visitables__ as pairs of Rank tag and returned
TypeList, in declaration order. -/
structure IntrusiveState where
  structName : String
  declCount : Nat
  declaredNames : List String
  overloads : List (Nat × List Member)
deriving DecidableEq, Repr

/-- Among a list of viable overloads, the one with the greatest Rank tag: the
most derived parameter type wins overload resolution. -/
def pickBest (os : List (Nat × List Member)) : Option (Nat × List Member) :=
  os.foldl
    (fun acc p =>
      match acc with
      | none => some p
      | some q => if q.1 < p.1 then some p else some q)
    none

/-- Overload resolution for a call with argument Rank of n: among the
declared overloads whose Rank tag is at most n - the viable candidates, since
a Rank converts only to Ranks below it - the one with the greatest tag, the
most derived parameter type, is selected; none when no overload is viable. -/
def resolveOverload (os : List (Nat × List Member)) (n : Nat) :
    Option (List Member) :=
  (pickBest (os.filter fun p => p.1 ≤ n)).map Prod.snd

/-- BEGIN_VISITABLES(NAME), lines 361 to 367: capture the stringized struct
name and declare the Rank 0 overload returning the empty TypeList; no member
is declared yet. -/
def beginVisitables (name : String) : IntrusiveState :=
  ⟨name, 0, [], [(0, [])]⟩

/-- VISITABLE(TYPE, NAME), lines 369 to 383: the expansion first declares the
member itself, TYPE NAME; - redeclaring a member name already present in the
struct body is a compile failure, modelled as none - then resolves the
current list at Rank of max_visitable_members_intrusive and declares a new
overload at Rank of current size plus one returning the current list with the
new member record appended. Declaring an overload whose signature already
exists with a different return type is likewise a compile failure. -/
def visitableDecl (st : IntrusiveState) (ty : CppType) (nm : String) :
    Option IntrusiveState :=
  if nm ∈ st.declaredNames then none
  else
    match resolveOverload st.overloads max_visitable_members_intrusive with
    | none => none
    | some cur =>
        let newRank := cur.length + 1
        let newList := cur ++ [⟨nm, ty, st.declCount⟩]
        if st.overloads.any fun p => p.1 == newRank && !(p.2 == newList) then
          none
        else some ⟨st.structName, st.declCount + 1,
                   st.declaredNames ++ [nm],
                   st.overloads ++ [(newRank, newList)]⟩

/-- Run a sequence of VISITABLE declarations from a given state, each
declaration reading the state the previous ones built, as the single
sequential parse of the struct body does. -/
def runDecls (st : IntrusiveState) :
    List (CppType × String) → Option IntrusiveState
  | [] => some st
  | d :: ds => (visitableDecl st d.1 d.2).bind fun st2 => runDecls st2 ds

/-- END_VISITABLES, lines 385 to 388: the registered members list is the
resolution of Visit_Struct_Get_Visitables__ at Rank of
max_visitable_members_intrusive, fixed by typedef at this point. -/
def endVisitables (st : IntrusiveState) : List Member :=
  (resolveOverload st.overloads max_visitable_members_intrusive).getD []

/-- Struct declaration the intrusive member declarations produce: each
VISITABLE declares its member, in order. -/
def intrusiveStructType (ds : List (CppType × String)) : StructType :=
  ⟨ds.map fun d => (d.2, d.1)⟩

/-- Member records a run of VISITABLE declarations produces, the position
counter starting at i: each declaration of (type, name) yields the record of
that name and type whose pointer to member is the position of the declared
member. -/
def mkMembersFrom (i : Nat) : List (CppType × String) → List Member
  | [] => []
  | d :: ds => ⟨d.2, d.1, i⟩ :: mkMembersFrom (i + 1) ds

/-- Member records of a full run of VISITABLE declarations. -/
def mkMembers (ds : List (CppType × String)) : List Member :=
  mkMembersFrom 0 ds

/-- Shape of the overload set after the declarations producing members ms:
one overload per Rank tag 0, 1, ..., ms.length, the tag j overload returning
the list of the first j members. -/
def expectedOverloads (ms : List Member) : List (Nat × List Member) :=
  (List.range (ms.length + 1)).map fun j => (j, ms.take j)

/-- member_helper apply_visitor together with the pack expansion of
structure_helper, lines 176 to 223: one visitor call per member of the
registered list, in list order, each passing the member name and the member
access std::forward(s).*ptr, whose qualification tracks that of s. The pack
expansion is well-formed also for the empty list thanks to the trailing zero
of the dummy array. -/
def structure_helper_apply {α : Type} (ms : List Member) (q : Qual)
    (s : Instance α) : Option (List (String × FieldRef α)) :=
  ms.mapM fun m =>
    (getVal s m.ptrIdx).map fun v => (m.member_name, qualRef q m.ptrIdx v)

/-- Two-instance apply_visitor of member_helper and structure_helper, lines
183 to 188 and 225 to 232: per member, the visitor receives the name and the
member access into each of the two instances, each with its own forwarding. -/
def structure_helper_apply2 {α : Type} (ms : List Member) (qa : Qual)
    (sa : Instance α) (qb : Qual) (sb : Instance α) :
    Option (List (String × FieldRef α × FieldRef α)) :=
  ms.mapM fun m =>
    (getVal sa m.ptrIdx).bind fun va =>
      (getVal sb m.ptrIdx).map fun vb =>
        (m.member_name, qualRef qa m.ptrIdx va, qualRef qb m.ptrIdx vb)

/-- structure_helper visit_pointers, lines 190 to 193 and 234 to 239: per
member, the visitor receives the name and the pointer to member. -/
def structure_helper_visit_pointers (ms : List Member) : List (String × Nat) :=
  ms.map fun m => (m.member_name, m.ptrIdx)

/-- structure_helper visit_types, lines 200 to 203 and 248 to 253: per
member, the visitor receives the name and the type tag of value_type. -/
def structure_helper_visit_types (ms : List Member) : List (String × CppType) :=
  ms.map fun m => (m.member_name, m.value_type)

/-- structure_helper visit_accessors, lines 195 to 198 and 241 to 246: per
member, the visitor receives the name and the accessor object built from the
pointer to member; the accessor is embedded as the member position it
extracts. -/
def structure_helper_visit_accessors (ms : List Member) : List (String × Nat) :=
  ms.map fun m => (m.member_name, m.ptrIdx)

/-!
Adaptation strategy: visit_struct_boost_fusion.hpp and
visit_struct_boost_hana.hpp.

The adapted library exposes, per index, a member name and an accessor; here
an adapted type is a StructType whose member order is the library sequence
order, and the accessor for index idx performs the index access at_c(s) with
the qualification rules of the accessor overloads (lines 46 to 61 of the
fusion header: S& to member&, const S& to const member&, S&& to moved
member), the same rules a hana accessor follows. The visitation loops are
fusion::for_each and hana::for_each over the index range 0 .. size - 1, in
increasing order.
-/

/-- Unary apply of the fusion backend, lines 128 to 134, and of the hana
backend, lines 83 to 88: for each index in increasing order the visitor
receives field_name of the index and the accessor applied to the forwarded
instance. -/
def adaptedApply {α : Type} (S : StructType) (q : Qual) (s : Instance α) :
    Option (List (String × FieldRef α)) :=
  S.members.enum.mapM fun p =>
    (getVal s p.1).map fun v => (p.2.1, qualRef q p.1 v)

/-- Binary apply of the fusion backend, lines 136 to 142, and of the hana
backend, lines 90 to 97: per index, name plus the per-instance accessor
results, qualifications independent. -/
def adaptedApply2 {α : Type} (S : StructType) (qa : Qual) (sa : Instance α)
    (qb : Qual) (sb : Instance α) :
    Option (List (String × FieldRef α × FieldRef α)) :=
  S.members.enum.mapM fun p =>
    (getVal sa p.1).bind fun va =>
      (getVal sb p.1).map fun vb => (p.2.1, qualRef qa p.1 va, qualRef qb p.1 vb)

/-- visit_types of the fusion backend, lines 144 to 150: the type tag is
result_of::value_at of the sequence, the declared member type. -/
def fusionVisitTypes (S : StructType) : List (String × CppType) :=
  S.members.map fun p => (p.1, p.2)

/-- visit_types of the hana backend, lines 99 to 106: the type tag is the
accessor_value_type inference applied to the accessor of the field. -/
def hanaVisitTypes (S : StructType) : List (String × CppType) :=
  S.members.map fun p => (p.1, accessor_value_type p.2)

/-- visit_accessors of both adaptation backends, fusion lines 152 to 158 and
hana lines 108 to 114: the payload is the accessor for the index. -/
def adaptedVisitAccessors (S : StructType) : List (String × Nat) :=
  S.members.enum.map fun p => (p.2.1, p.1)

/-!
The visitable trait record: the uniform contract every strategy implements,
from the trait specializations of the three headers. An operation a strategy
does not provide is none.
-/

/-- One specialization of visit_struct::traits::visitable. Traces are the
sequences of visitor invocations; struct_name models the no-argument get_name
of the intrusive specialization, lines 343 to 346. -/
structure Visitable (α : Type) where
  field_count : Nat
  apply : Qual → Instance α → Option (List (String × FieldRef α))
  apply2 : Qual → Instance α → Qual → Instance α →
    Option (List (String × FieldRef α × FieldRef α))
  visit_pointers : Option (List (String × Nat))
  visit_types : Option (List (String × CppType))
  visit_accessors : Option (List (String × Nat))
  get_value : Nat → Qual → Instance α → Option (FieldRef α)
  get_name : Nat → Option String
  get_accessor : Nat → Option Nat
  type_at : Nat → Option CppType
  struct_name : Option String

/-- Trait specialization produced by VISITABLE_STRUCT for struct S with the
given macro argument list. The apply overloads are the ones the macro
generates, visit_struct.hpp lines 100 to 129. The remaining operations are
absent from this snapshot of the header and are modelled from the spec:
field_count is the number of listed names; the indexed queries resolve the
i-th listed name in S; the no-instance visitations pair each listed name with
its pointer to member, its declared type, and its accessor. -/
def externalVisitable {α : Type} (S : StructType) (names : List String) :
    Visitable α where
  field_count := names.length
  apply := fun q s => externalApply S names q s
  apply2 := fun qa sa qb sb => externalApply2 S names qa sa qb sb
  visit_pointers := names.mapM fun n => (memberIdx S n).map fun i => (n, i)
  visit_types := names.mapM fun n =>
    (memberIdx S n).bind fun i => (memberType S i).map fun t => (n, t)
  visit_accessors := names.mapM fun n => (memberIdx S n).map fun i => (n, i)
  get_value := fun i q s => (names.get? i).bind fun n =>
    (memberIdx S n).bind fun j => (getVal s j).map fun v => qualRef q j v
  get_name := fun i => names.get? i
  get_accessor := fun i => (names.get? i).bind fun n => memberIdx S n
  type_at := fun i => (names.get? i).bind fun n =>
    (memberIdx S n).bind fun j => memberType S j
  struct_name := none

/-- Trait specialization for an intrusively declared struct, from the
registered members list fixed by END_VISITABLES: visit_struct_intrusive.hpp
lines 266 to 349. field_count is the size of the list, line 275; the
visitations run structure_helper over the list; the indexed queries Find the
idx-th record of the list; get_name with no index returns the struct name
captured by BEGIN_VISITABLES. -/
def intrusiveVisitable {α : Type} (st : IntrusiveState) : Visitable α :=
  let ms := endVisitables st
  { field_count := ms.length
    apply := fun q s => structure_helper_apply ms q s
    apply2 := fun qa sa qb sb => structure_helper_apply2 ms qa sa qb sb
    visit_pointers := some (structure_helper_visit_pointers ms)
    visit_types := some (structure_helper_visit_types ms)
    visit_accessors := some (structure_helper_visit_accessors ms)
    get_value := fun i q s => (ms.get? i).bind fun m =>
      (getVal s m.ptrIdx).map fun v => qualRef q m.ptrIdx v
    get_name := fun i => (ms.get? i).map Member.member_name
    get_accessor := fun i => (ms.get? i).map Member.ptrIdx
    type_at := fun i => (ms.get? i).map Member.value_type
    struct_name := some st.structName }

/-- Trait specialization for a fusion-adapted type, visit_struct_boost_fusion.hpp
lines 27 to 187: field_count is the sequence size, line 125; there is no
visit_pointers operation in this specialization; indexed queries go through
field_name, the accessor, and result_of::value_at. -/
def fusionVisitable {α : Type} (S : StructType) : Visitable α where
  field_count := S.members.length
  apply := fun q s => adaptedApply S q s
  apply2 := fun qa sa qb sb => adaptedApply2 S qa sa qb sb
  visit_pointers := none
  visit_types := some (fusionVisitTypes S)
  visit_accessors := some (adaptedVisitAccessors S)
  get_value := fun i q s => if i < S.members.length then
      (getVal s i).map fun v => qualRef q i v
    else none
  get_name := fun i => (S.members.get? i).map Prod.fst
  get_accessor := fun i => if i < S.members.length then some i else none
  type_at := fun i => (S.members.get? i).map Prod.snd
  struct_name := none

/-- Trait specialization for a hana-adapted type, visit_struct_boost_hana.hpp
lines 77 to 138: as for fusion, but the type tags of visit_types and type_at
are inferred through accessor_value_type, lines 102 and 135; there is no
visit_pointers operation in this specialization. -/
def hanaVisitable {α : Type} (S : StructType) : Visitable α where
  field_count := S.members.length
  apply := fun q s => adaptedApply S q s
  apply2 := fun qa sa qb sb => adaptedApply2 S qa sa qb sb
  visit_pointers := none
  visit_types := some (hanaVisitTypes S)
  visit_accessors := some (adaptedVisitAccessors S)
  get_value := fun i q s => if i < S.members.length then
      (getVal s i).map fun v => qualRef q i v
    else none
  get_name := fun i => (S.members.get? i).map Prod.fst
  get_accessor := fun i => if i < S.members.length then some i else none
  type_at := fun i => (S.members.get? i).map (fun p => accessor_value_type p.2)
  struct_name := none

/-!
Public entry points. The registration environment maps a type, identified by
its name, to its trait specialization when one exists. apply_visitor and the
is_visitable trait are in visit_struct.hpp lines 26 to 54: apply_visitor is
guarded by enable_if on is_visitable of the remove_cv remove_reference of the
argument type, so on an unregistered type no overload exists, modelled as
none; is_visitable falls back to false_type on the primary template. The
remaining free functions are absent from this snapshot of the main header and
are modelled from the spec: each is a thin wrapper that looks up the trait
specialization of the type and forwards to the corresponding operation,
failing to compile - none - when no specialization exists.
-/

/-- The set of trait specializations in scope: type name to specialization. -/
def Env (α : Type) : Type := List (String × Visitable α)

/-- Lookup of the trait specialization for a type. -/
def lookupTrait {α : Type} (env : Env α) (t : String) : Option (Visitable α) :=
  List.lookup t env

/-- visit_struct::traits::is_visitable, visit_struct.hpp lines 33 to 39:
true exactly when a trait specialization with value true exists, false via
the primary template otherwise; well-formed on every type. -/
def is_visitable {α : Type} (env : Env α) (t : String) : Bool :=
  (lookupTrait env t).isSome

/-- visit_struct::apply_visitor, visit_struct.hpp lines 44 to 54, forwarding
to visitable of the cleaned type; the qualification of the instance argument
is forwarded unchanged. -/
def apply_visitor {α : Type} (env : Env α) (t : String) (q : Qual)
    (s : Instance α) : Option (List (String × FieldRef α)) :=
  (lookupTrait env t).bind fun impl => impl.apply q s

/-- Modelled from the spec: the two-instance apply_visitor entry point,
absent from this snapshot of the main header; forwards both instances to the
binary apply of the trait. -/
def apply_visitor2 {α : Type} (env : Env α) (t : String) (qa : Qual)
    (sa : Instance α) (qb : Qual) (sb : Instance α) :
    Option (List (String × FieldRef α × FieldRef α)) :=
  (lookupTrait env t).bind fun impl => impl.apply2 qa sa qb sb

/-- Modelled from the spec: visit_struct::for_each, the value-visitation
alias of apply_visitor with the instance first and the visitor second. -/
def for_each {α : Type} (env : Env α) (t : String) (s : Instance α) (q : Qual) :
    Option (List (String × FieldRef α)) :=
  apply_visitor env t q s

/-- Modelled from the spec: visit_struct::visit_pointers, forwarding to the
trait operation of the same name; unavailable when the specialization does
not provide it. -/
def visit_pointers {α : Type} (env : Env α) (t : String) :
    Option (List (String × Nat)) :=
  (lookupTrait env t).bind fun impl => impl.visit_pointers

/-- Modelled from the spec: visit_struct::visit_types. -/
def visit_types {α : Type} (env : Env α) (t : String) :
    Option (List (String × CppType)) :=
  (lookupTrait env t).bind fun impl => impl.visit_types

/-- Modelled from the spec: visit_struct::visit_accessors. -/
def visit_accessors {α : Type} (env : Env α) (t : String) :
    Option (List (String × Nat)) :=
  (lookupTrait env t).bind fun impl => impl.visit_accessors

/-- Modelled from the spec: visit_struct::get, the indexed field access,
forwarding to get_value of the trait. -/
def get {α : Type} (env : Env α) (t : String) (i : Nat) (q : Qual)
    (s : Instance α) : Option (FieldRef α) :=
  (lookupTrait env t).bind fun impl => impl.get_value i q s

/-- Modelled from the spec: visit_struct::get_name on an index. -/
def get_name {α : Type} (env : Env α) (t : String) (i : Nat) : Option String :=
  (lookupTrait env t).bind fun impl => impl.get_name i

/-- Modelled from the spec: visit_struct::get_accessor. -/
def get_accessor {α : Type} (env : Env α) (t : String) (i : Nat) : Option Nat :=
  (lookupTrait env t).bind fun impl => impl.get_accessor i

/-- Modelled from the spec: visit_struct::type_at. -/
def type_at {α : Type} (env : Env α) (t : String) (i : Nat) : Option CppType :=
  (lookupTrait env t).bind fun impl => impl.type_at i

/-- Modelled from the spec: visit_struct::field_count. -/
def field_count {α : Type} (env : Env α) (t : String) : Option Nat :=
  (lookupTrait env t).map fun impl => impl.field_count

/-- Modelled from the spec: the no-argument visit_struct::get_name returning
the name of the structure itself, available for intrusively declared types. -/
def get_struct_name {α : Type} (env : Env α) (t : String) : Option String :=
  (lookupTrait env t).bind fun impl => impl.struct_name

/-- A struct declaration whose member names are C++ identifiers, in
particular nonempty. -/
def wellFormedNames (S : StructType) : Prop :=
  ∀ p ∈ S.members, p.1 ≠ ""

/-!
Concrete registrations mirroring the test suite, used as evaluation points.
-/

/-- test_struct_one of test_visit_struct.cpp. -/
def test_struct_one : StructType :=
  ⟨[("a", .base "int"), ("b", .base "float"), ("c", .base "std::string")]⟩

/-- An instance of test_struct_one; member values are drawn from Nat. -/
def ts1 : Instance Nat := ⟨[5, 7, 9]⟩

/-- A second instance of test_struct_one. -/
def ts1b : Instance Nat := ⟨[1, 2, 3]⟩

/-- The intrusive declarations of test::foo from
test_visit_struct_intrusive.cpp. -/
def fooDecls : List (CppType × String) :=
  [(.base "bool", "b"), (.base "int", "i"), (.base "float", "f")]

/-- An instance of test::foo. -/
def fooInst : Instance Nat := ⟨[1, 5, 7]⟩

/-- test_struct_two as adapted for boost::fusion in
test_visit_struct_boost_fusion.cpp: the registration site lists d, i, b. -/
def test_struct_two_fusion : StructType :=
  ⟨[("d", .base "double"), ("i", .base "int"), ("b", .base "bool")]⟩

/-- test_struct_three of test_visit_struct_boost_hana.cpp, with a const
member. -/
def test_struct_three : StructType :=
  ⟨[("i1", .base "int"), ("i2", .const (.base "int"))]⟩

/-- An environment with one registered type, the externally registered
test_struct_one, and one fusion-adapted type. -/
def exEnv : Env Nat :=
  [("test_struct_one", externalVisitable test_struct_one ["a", "b", "c"]),
   ("test_struct_two", fusionVisitable test_struct_two_fusion)]

/-- A struct with no members. -/
def emptyStruct : StructType := ⟨[]⟩

/-- An instance of the empty struct. -/
def emptyInst : Instance Nat := ⟨[]⟩

/-- The member records test::foo accumulates. -/
def fooMembers : List Member :=
  [⟨"b", .base "bool", 0⟩, ⟨"i", .base "int", 1⟩, ⟨"f", .base "float", 2⟩]

/-- The intrusive state after the BEGIN_VISITABLES, VISITABLE, VISITABLE,
VISITABLE sequence of test::foo. -/
def fooSt : IntrusiveState :=
  ⟨"foo", 3, ["b", "i", "f"],
   [(0, []), (1, fooMembers.take 1), (2, fooMembers.take 2), (3, fooMembers)]⟩

/-- An instance of test_struct_two as adapted for fusion. -/
def ts2 : Instance Nat := ⟨[4, 5, 6]⟩

/-- A second instance of test_struct_two. -/
def ts2b : Instance Nat := ⟨[8, 9, 10]⟩

/-- Index of each registered name of test_struct_one. -/
def ts1Index (n : String) : Nat :=
  if n = "a" then 0 else if n = "b" then 1 else 2

/-- Value of each registered name in ts1. -/
def ts1Value (n : String) : Nat :=
  if n = "a" then 5 else if n = "b" then 7 else 9

/-- Value of each registered name in ts1b. -/
def ts1bValue (n : String) : Nat :=
  if n = "a" then 1 else if n = "b" then 2 else 3

/-- Value of each member record of test::foo in fooInst. -/
def fooValue (m : Member) : Nat :=
  if m.ptrIdx = 0 then 1 else if m.ptrIdx = 1 then 5 else 7

/-- Declared type of each registered name of test_struct_one. -/
def ts1Type (n : String) : CppType :=
  if n = "a" then .base "int"
  else if n = "b" then .base "float"
  else .base "std::string"

end VisitStruct

/-!
Theorems. Helper lemmas come first; the claim theorems, their witnesses and
counterexamples close the file.
-/

namespace VisitStruct

/-- mapM in the Option monad on a list all of whose elements succeed. -/
theorem mapM_option_map {β γ : Type} (f : β → Option γ) (g : β → γ)
    (l : List β) (h : ∀ b ∈ l, f b = some (g b)) :
    l.mapM f = some (l.map g) := by
  induction l with
  | nil => rfl
  | cons a t ih =>
      have ha : f a = some (g a) := h a (List.mem_cons_self a t)
      have ht : ∀ b ∈ t, f b = some (g b) := fun b hb =>
        h b (List.mem_cons_of_mem a hb)
      rw [List.mapM_cons, ha, ih ht]
      rfl

/-- The MAP recursion on a nonempty identifier stream emits one call per
identifier, left to right. -/
theorem ppMap1_idents {α : Type} (f : String → α) (a : String)
    (rest : List String) :
    ppMap1 f (List.map PPToken.ident (a :: rest) ++ [PPToken.parens, PPToken.zero])
      = (a :: rest).map f := by
  induction rest generalizing a with
  | nil => rfl
  | cons b t ih =>
      have hb := ih b
      simp only [List.map_cons, List.cons_append] at hb ⊢
      rw [ppMap1]
      simp [PPToken.text, hb]

/-- On a nonempty argument list the preprocessor MAP invokes the helper on
exactly the listed names, in the listed order. -/
theorem ppExpandedNames_eq (args : List String) (h : args ≠ []) :
    ppExpandedNames args = args := by
  cases args with
  | nil => exact absurd rfl h
  | cons a rest =>
      unfold ppExpandedNames ppStream
      simpa using ppMap1_idents (fun s => s) a rest

/-- On the empty argument list the preprocessor MAP still emits exactly one
helper invocation, on the empty token. -/
theorem ppExpandedNames_nil : ppExpandedNames [] = [""] := rfl

/-- Unfolding pickBest over a final overload. -/
theorem pickBest_append (os : List (Nat × List Member)) (p : Nat × List Member) :
    pickBest (os ++ [p])
      = match pickBest os with
        | none => some p
        | some q => if q.1 < p.1 then some p else some q := by
  unfold pickBest
  rw [List.foldl_append]
  rfl

/-- Length bookkeeping for mkMembersFrom. -/
theorem length_mkMembersFrom (i : Nat) (ds : List (CppType × String)) :
    (mkMembersFrom i ds).length = ds.length := by
  induction ds generalizing i with
  | nil => rfl
  | cons d t ih => simp [mkMembersFrom, ih]

/-- mkMembersFrom over an appended declaration. -/
theorem mkMembersFrom_append (i : Nat) (ds : List (CppType × String))
    (d : CppType × String) :
    mkMembersFrom i (ds ++ [d])
      = mkMembersFrom i ds ++ [⟨d.2, d.1, i + ds.length⟩] := by
  induction ds generalizing i with
  | nil => simp [mkMembersFrom]
  | cons e t ih =>
      show (⟨e.2, e.1, i⟩ : Member) :: mkMembersFrom (i + 1) (t ++ [d])
          = (⟨e.2, e.1, i⟩ : Member) :: mkMembersFrom (i + 1) t
              ++ [⟨d.2, d.1, i + (t.length + 1)⟩]
      rw [ih (i + 1)]
      have harith : i + 1 + t.length = i + (t.length + 1) := by omega
      rw [harith, List.cons_append]

/-- The names of the produced member records are the declared names. -/
theorem map_name_mkMembersFrom (i : Nat) (ds : List (CppType × String)) :
    (mkMembersFrom i ds).map Member.member_name = ds.map Prod.snd := by
  induction ds generalizing i with
  | nil => rfl
  | cons d t ih => simp [mkMembersFrom, ih]

/-- The value types of the produced member records are the declared types. -/
theorem map_type_mkMembersFrom (i : Nat) (ds : List (CppType × String)) :
    (mkMembersFrom i ds).map Member.value_type = ds.map Prod.fst := by
  induction ds generalizing i with
  | nil => rfl
  | cons d t ih => simp [mkMembersFrom, ih]

/-- The j-th produced member record. -/
theorem get_mkMembersFrom (i : Nat) (ds : List (CppType × String)) (j : Nat) :
    (mkMembersFrom i ds).get? j
      = (ds.get? j).map fun d => (⟨d.2, d.1, i + j⟩ : Member) := by
  induction ds generalizing i j with
  | nil => simp [mkMembersFrom]
  | cons d t ih =>
      cases j with
      | zero => simp [mkMembersFrom]
      | succ j =>
          simp only [mkMembersFrom, List.get?_cons_succ, ih (i + 1) j]
          have : i + 1 + j = i + (j + 1) := by omega
          rw [this]

/-- Pointer indices of the produced member records are below the total. -/
theorem ptrIdx_lt_of_mem_mkMembersFrom (i : Nat) (ds : List (CppType × String))
    (m : Member) (hm : m ∈ mkMembersFrom i ds) : m.ptrIdx < i + ds.length := by
  induction ds generalizing i with
  | nil => simp [mkMembersFrom] at hm
  | cons d t ih =>
      simp only [mkMembersFrom, List.mem_cons] at hm
      rcases hm with h | h
      · subst h
        simp
      · have := ih (i + 1) h
        simpa [Nat.add_comm, Nat.add_left_comm] using Nat.lt_of_lt_of_le this (by omega)

/-- Every overload in the expected set has tag at most the member count. -/
theorem rank_le_of_mem_expectedOverloads (ms : List Member)
    (p : Nat × List Member) (hp : p ∈ expectedOverloads ms) :
    p.1 ≤ ms.length := by
  unfold expectedOverloads at hp
  rcases List.mem_map.mp hp with ⟨j, hj, rfl⟩
  exact Nat.lt_succ_iff.mp (List.mem_range.mp hj)

/-- The expected overload set over an appended member record. -/
theorem expectedOverloads_append (ms : List Member) (m : Member) :
    expectedOverloads (ms ++ [m])
      = expectedOverloads ms ++ [(ms.length + 1, ms ++ [m])] := by
  unfold expectedOverloads
  rw [List.length_append, List.length_singleton, List.range_succ, List.map_append]
  congr 1
  · apply List.map_congr_left
    intro j hj
    have hjle : j ≤ ms.length := Nat.lt_succ_iff.mp (List.mem_range.mp hj)
    rw [List.take_append_of_le_length hjle]
  · simp

/-- Overload resolution over the expected overload set: the most derived
viable overload returns the first min(size, n) members. -/
theorem pickBest_expected (ms : List Member) (n : Nat) :
    pickBest ((expectedOverloads ms).filter fun p => p.1 ≤ n)
      = some (min ms.length n, ms.take (min ms.length n)) := by
  induction ms using List.reverseRecOn with
  | nil =>
      have hexp : expectedOverloads [] = [((0 : Nat), ([] : List Member))] := rfl
      have h0 : List.filter (fun p => decide (p.1 ≤ n))
          [((0 : Nat), ([] : List Member))] = [(0, [])] := by simp
      rw [hexp, h0]
      simp [pickBest, Nat.zero_min]
  | append_singleton ms m ih =>
      rw [expectedOverloads_append, List.filter_append]
      by_cases h : ms.length + 1 ≤ n
      · have hfilter :
            List.filter (fun p => decide (p.1 ≤ n)) [(ms.length + 1, ms ++ [m])]
              = [(ms.length + 1, ms ++ [m])] := by
          simp [List.filter, h]
        rw [hfilter, pickBest_append, ih]
        have h1 : min ms.length n = ms.length := Nat.min_eq_left (by omega)
        have h2 : min (ms ++ [m]).length n = ms.length + 1 := by
          simp only [List.length_append, List.length_singleton]
          exact Nat.min_eq_left h
        rw [h1, h2]
        simp [List.take_length]
      · have hfilter :
            List.filter (fun p => decide (p.1 ≤ n)) [(ms.length + 1, ms ++ [m])]
              = [] := by
          simp [List.filter, h]
        rw [hfilter, List.append_nil, ih]
        have hn : n ≤ ms.length := by omega
        have h1 : min ms.length n = n := Nat.min_eq_right hn
        have h2 : min (ms ++ [m]).length n = n := by
          simp only [List.length_append, List.length_singleton]
          exact Nat.min_eq_right (by omega)
        rw [h1, h2, List.take_append_of_le_length hn]

/-- Resolution at any Rank over the expected overload set. -/
theorem resolveOverload_expected (ms : List Member) (n : Nat) :
    resolveOverload (expectedOverloads ms) n
      = some (ms.take (min ms.length n)) := by
  unfold resolveOverload
  rw [pickBest_expected]
  rfl

/-- One VISITABLE declaration of a fresh member name made while the member
count is still within max_visitable_members_intrusive succeeds, declares the
member and appends one overload, keeping the expected shape. -/
theorem visitableDecl_expected (nm : String) (ns : List String)
    (ms : List Member)
    (h : ms.length ≤ max_visitable_members_intrusive)
    (ty : CppType) (mn : String) (hnm : mn ∉ ns) :
    visitableDecl ⟨nm, ms.length, ns, expectedOverloads ms⟩ ty mn
      = some ⟨nm, ms.length + 1, ns ++ [mn],
              expectedOverloads (ms ++ [⟨mn, ty, ms.length⟩])⟩ := by
  unfold visitableDecl
  simp only [resolveOverload_expected, Nat.min_eq_left h, List.take_length]
  rw [if_neg hnm]
  have hconf : (List.any (expectedOverloads ms) fun p =>
      p.1 == ms.length + 1 && !(p.2 == ms ++ [⟨mn, ty, ms.length⟩])) = false := by
    rw [List.any_eq_false]
    intro p hp
    have := rank_le_of_mem_expectedOverloads ms p hp
    simp only [Bool.and_eq_true, beq_iff_eq, Bool.not_eq_true']
    intro hcontr
    omega
  simp only [hconf, Bool.false_eq_true, if_false]
  rw [expectedOverloads_append]

/-- Splitting a run of declarations. -/
theorem runDecls_append (st : IntrusiveState) (ds es : List (CppType × String)) :
    runDecls st (ds ++ es)
      = (runDecls st ds).bind fun st2 => runDecls st2 es := by
  induction ds generalizing st with
  | nil => rfl
  | cons d t ih =>
      simp only [List.cons_append, runDecls]
      cases visitableDecl st d.1 d.2 with
      | none => rfl
      | some st2 => simp [ih st2]

/-- A begin-marker followed by at most max_visitable_members_intrusive plus
one declarations compiles, and the overload set reaches the expected shape
with the declared members in declaration order. With exactly one declaration
beyond the bound the registration still compiles - the extra overload sits at
a Rank beyond the resolution tag; only from two declarations beyond the bound
onward does the redeclaration conflict arise. -/
theorem runDecls_expected (nm : String) (ds : List (CppType × String))
    (h : ds.length ≤ max_visitable_members_intrusive + 1)
    (hnd : (ds.map Prod.snd).Nodup) :
    runDecls (beginVisitables nm) ds
      = some ⟨nm, ds.length, ds.map Prod.snd,
              expectedOverloads (mkMembers ds)⟩ := by
  induction ds using List.reverseRecOn with
  | nil => rfl
  | append_singleton ds d ih =>
      have hds : ds.length ≤ max_visitable_members_intrusive + 1 := by
        rw [List.length_append, List.length_singleton] at h
        omega
      have hlt : ds.length ≤ max_visitable_members_intrusive := by
        rw [List.length_append, List.length_singleton] at h
        omega
      rw [List.map_append] at hnd
      have hnd1 : (ds.map Prod.snd).Nodup := hnd.of_append_left
      have hnotin : d.2 ∉ ds.map Prod.snd := by
        intro hmem
        have hdisj := List.disjoint_of_nodup_append hnd
        exact hdisj hmem (by simp)
      rw [runDecls_append, ih hds hnd1]
      have hms : (mkMembers ds).length = ds.length := length_mkMembersFrom 0 ds
      show (visitableDecl
              ⟨nm, ds.length, ds.map Prod.snd, expectedOverloads (mkMembers ds)⟩
              d.1 d.2).bind (fun st2 => runDecls st2 [])
            = some ⟨nm, (ds ++ [d]).length, (ds ++ [d]).map Prod.snd,
                    expectedOverloads (mkMembers (ds ++ [d]))⟩
      rw [← hms] at hlt ⊢
      rw [visitableDecl_expected nm (ds.map Prod.snd) (mkMembers ds) hlt
            d.1 d.2 hnotin]
      have hmk : mkMembers (ds ++ [d])
          = mkMembers ds ++ [⟨d.2, d.1, (mkMembers ds).length⟩] := by
        unfold mkMembers
        have hlen2 : (mkMembersFrom 0 ds).length = ds.length :=
          length_mkMembersFrom 0 ds
        rw [mkMembersFrom_append, hlen2, Nat.zero_add]
      rw [hmk]
      simp only [Option.bind_some, runDecls, List.length_append,
        List.length_singleton, hms, List.map_append, List.map_cons,
        List.map_nil]

/-- The registered list END_VISITABLES fixes, for a run within the bound: the
declared members in declaration order. -/
theorem endVisitables_expected (nm : String) (k : Nat) (ns : List String)
    (ms : List Member)
    (hlen : ms.length ≤ max_visitable_members_intrusive) :
    endVisitables ⟨nm, k, ns, expectedOverloads ms⟩ = ms := by
  unfold endVisitables
  rw [resolveOverload_expected, Nat.min_eq_left hlen, List.take_length]
  rfl

/-- Inversion of one successful VISITABLE declaration: the member name was
fresh - the member declaration TYPE NAME; would otherwise redeclare an
existing member - the name is recorded, and the struct name is unchanged. -/
theorem visitableDecl_inv (st st1 : IntrusiveState) (ty : CppType)
    (nm : String) (h : visitableDecl st ty nm = some st1) :
    st1.structName = st.structName
    ∧ nm ∉ st.declaredNames
    ∧ st1.declaredNames = st.declaredNames ++ [nm] := by
  unfold visitableDecl at h
  by_cases hdup : nm ∈ st.declaredNames
  · rw [if_pos hdup] at h
    exact absurd h (by simp)
  · rw [if_neg hdup] at h
    rcases hres : resolveOverload st.overloads max_visitable_members_intrusive with
      _ | cur
    · rw [hres] at h
      simp at h
    · rw [hres] at h
      simp only at h
      by_cases hc : (st.overloads.any fun p =>
          p.1 == cur.length + 1 && !(p.2 == cur ++ [⟨nm, ty, st.declCount⟩])) = true
      · rw [if_pos hc] at h
        simp at h
      · rw [if_neg hc] at h
        simp only [Option.some.injEq] at h
        rw [← h]
        exact ⟨rfl, hdup, rfl⟩

/-- The struct name captured by BEGIN_VISITABLES is never changed by the
member declarations. -/
theorem structName_runDecls (st st2 : IntrusiveState)
    (ds : List (CppType × String))
    (h : runDecls st ds = some st2) : st2.structName = st.structName := by
  induction ds generalizing st with
  | nil =>
      simp only [runDecls, Option.some.injEq] at h
      rw [← h]
  | cons d t ih =>
      simp only [runDecls, Option.bind_eq_some] at h
      rcases h with ⟨st1, hst1, hrun⟩
      rw [ih st1 hrun, (visitableDecl_inv st st1 d.1 d.2 hst1).1]

/-- The declared member names accumulate in declaration order across a
successful run. -/
theorem declaredNames_runDecls (st st2 : IntrusiveState)
    (ds : List (CppType × String)) (h : runDecls st ds = some st2) :
    st2.declaredNames = st.declaredNames ++ ds.map Prod.snd := by
  induction ds generalizing st with
  | nil =>
      simp only [runDecls, Option.some.injEq] at h
      rw [← h, List.map_nil, List.append_nil]
  | cons d t ih =>
      simp only [runDecls, Option.bind_eq_some] at h
      rcases h with ⟨st1, hst1, hrun⟩
      obtain ⟨-, -, hdn⟩ := visitableDecl_inv st st1 d.1 d.2 hst1
      rw [ih st1 hrun, hdn, List.map_cons, List.append_assoc]
      rfl

/-- Freedom from duplicates of the declared names is preserved across a
successful run: every step declares a fresh member. -/
theorem nodup_declaredNames_runDecls (st st2 : IntrusiveState)
    (ds : List (CppType × String)) (h : runDecls st ds = some st2)
    (hnd : st.declaredNames.Nodup) : st2.declaredNames.Nodup := by
  induction ds generalizing st with
  | nil =>
      simp only [runDecls, Option.some.injEq] at h
      rw [← h]
      exact hnd
  | cons d t ih =>
      simp only [runDecls, Option.bind_eq_some] at h
      rcases h with ⟨st1, hst1, hrun⟩
      obtain ⟨-, hfresh, hdn⟩ := visitableDecl_inv st st1 d.1 d.2 hst1
      refine ih st1 hrun ?_
      rw [hdn]
      refine List.nodup_append.mpr ⟨hnd, List.nodup_singleton _, ?_⟩
      intro a ha hb
      rw [List.mem_singleton] at hb
      subst hb
      exact hfresh ha

/-- A successful run of declarations from the begin marker has pairwise
distinct member names: a repeated name would make VISITABLE redeclare an
existing member, a compile failure. -/
theorem nodup_of_runDecls (nm : String) (ds : List (CppType × String))
    (st : IntrusiveState)
    (h : runDecls (beginVisitables nm) ds = some st) :
    (ds.map Prod.snd).Nodup := by
  have h1 := declaredNames_runDecls (beginVisitables nm) st ds h
  have h2 := nodup_declaredNames_runDecls (beginVisitables nm) st ds h
    (by simp [beginVisitables])
  rw [h1] at h2
  simpa [beginVisitables] using h2

/-- Position bound for members of an enumFrom list. -/
theorem fst_lt_of_mem_enumFrom {β : Type} (l : List β) (i : Nat)
    (p : Nat × β) (hp : p ∈ List.enumFrom i l) : p.1 < i + l.length := by
  induction l generalizing i with
  | nil => simp [List.enumFrom] at hp
  | cons b t ih =>
      simp only [List.enumFrom, List.mem_cons] at hp
      rcases hp with h | h
      · subst h; simp
      · have := ih (i + 1) h
        simp only [List.length_cons]
        omega

/-- Second components of an enumFrom list. -/
theorem map_snd_enumFrom {β : Type} (l : List β) (i : Nat) :
    (List.enumFrom i l).map Prod.snd = l := by
  induction l generalizing i with
  | nil => rfl
  | cons b t ih => simp [List.enumFrom, ih]

/-- Trace of the unary intrusive visitation: one invocation per registered
member, in list order, carrying the member name and the matching qualified
reference to the member storage. -/
theorem structure_helper_apply_eq {α : Type} (ms : List Member) (q : Qual)
    (s : Instance α) (w : Member → α)
    (hw : ∀ m ∈ ms, getVal s m.ptrIdx = some (w m)) :
    structure_helper_apply ms q s
      = some (ms.map fun m => (m.member_name, qualRef q m.ptrIdx (w m))) := by
  unfold structure_helper_apply
  exact mapM_option_map _ _ _ fun m hm => by rw [hw m hm]; rfl

/-- Trace of the binary intrusive visitation. -/
theorem structure_helper_apply2_eq {α : Type} (ms : List Member)
    (qa : Qual) (sa : Instance α) (qb : Qual) (sb : Instance α)
    (wa wb : Member → α)
    (hwa : ∀ m ∈ ms, getVal sa m.ptrIdx = some (wa m))
    (hwb : ∀ m ∈ ms, getVal sb m.ptrIdx = some (wb m)) :
    structure_helper_apply2 ms qa sa qb sb
      = some (ms.map fun m =>
          (m.member_name, qualRef qa m.ptrIdx (wa m), qualRef qb m.ptrIdx (wb m))) := by
  unfold structure_helper_apply2
  exact mapM_option_map _ _ _ fun m hm => by rw [hwa m hm, hwb m hm]; rfl

/-- Trace of the unary external visitation on a nonempty registration whose
names all resolve. -/
theorem externalApply_eq {α : Type} (S : StructType) (names : List String)
    (q : Qual) (s : Instance α) (iw : String → Nat) (vw : String → α)
    (hne : names ≠ [])
    (hiw : ∀ n ∈ names, memberIdx S n = some (iw n))
    (hvw : ∀ n ∈ names, getVal s (iw n) = some (vw n)) :
    externalApply S names q s
      = some (names.map fun n => (n, qualRef q (iw n) (vw n))) := by
  unfold externalApply
  rw [ppExpandedNames_eq names hne]
  exact mapM_option_map _ _ _ fun n hn => by simp [hiw n hn, hvw n hn]

/-- Trace of the binary external visitation. -/
theorem externalApply2_eq {α : Type} (S : StructType) (names : List String)
    (qa : Qual) (sa : Instance α) (qb : Qual) (sb : Instance α)
    (iw : String → Nat) (va vb : String → α)
    (hne : names ≠ [])
    (hiw : ∀ n ∈ names, memberIdx S n = some (iw n))
    (hva : ∀ n ∈ names, getVal sa (iw n) = some (va n))
    (hvb : ∀ n ∈ names, getVal sb (iw n) = some (vb n)) :
    externalApply2 S names qa sa qb sb
      = some (names.map fun n =>
          (n, qualRef qa (iw n) (va n), qualRef qb (iw n) (vb n))) := by
  unfold externalApply2
  rw [ppExpandedNames_eq names hne]
  exact mapM_option_map _ _ _ fun n hn => by
    simp [hiw n hn, hva n hn, hvb n hn]

/-- Trace of the unary adapted visitation, fusion and hana alike: one
invocation per sequence index, in increasing index order. -/
theorem adaptedApply_eq {α : Type} (S : StructType) (q : Qual)
    (s : Instance α) (w : Nat → α)
    (hw : ∀ i, i < S.members.length → getVal s i = some (w i)) :
    adaptedApply S q s
      = some (S.members.enum.map fun p => (p.2.1, qualRef q p.1 (w p.1))) := by
  unfold adaptedApply
  exact mapM_option_map _ _ _ fun p hp => by
    have hlt : p.1 < S.members.length := by
      have := fst_lt_of_mem_enumFrom S.members 0 p hp
      simpa using this
    rw [hw p.1 hlt]
    rfl

/-- Trace of the binary adapted visitation. -/
theorem adaptedApply2_eq {α : Type} (S : StructType) (qa : Qual)
    (sa : Instance α) (qb : Qual) (sb : Instance α) (wa wb : Nat → α)
    (hwa : ∀ i, i < S.members.length → getVal sa i = some (wa i))
    (hwb : ∀ i, i < S.members.length → getVal sb i = some (wb i)) :
    adaptedApply2 S qa sa qb sb
      = some (S.members.enum.map fun p =>
          (p.2.1, qualRef qa p.1 (wa p.1), qualRef qb p.1 (wb p.1))) := by
  unfold adaptedApply2
  exact mapM_option_map _ _ _ fun p hp => by
    have hlt : p.1 < S.members.length := by
      have := fst_lt_of_mem_enumFrom S.members 0 p hp
      simpa using this
    rw [hwa p.1 hlt, hwb p.1 hlt]
    rfl

/-- Names of the adapted visitation trace: the sequence names in order. -/
theorem adapted_trace_names {α : Type} (S : StructType)
    (g : Nat × (String × CppType) → FieldRef α) :
    (S.members.enum.map fun p => (p.2.1, g p)).map Prod.fst
      = S.members.map Prod.fst := by
  have key : ∀ (l : List (String × CppType)) (i : Nat),
      ((List.enumFrom i l).map fun p => (p.2.1, g p)).map Prod.fst
        = l.map Prod.fst := by
    intro l
    induction l with
    | nil => intro i; rfl
    | cons b t ih => intro i; simp [List.enumFrom, ih]
  exact key S.members 0

/-- Types trace of the intrusive strategy over the produced records. -/
theorem visit_types_mkMembersFrom (i : Nat) (ds : List (CppType × String)) :
    structure_helper_visit_types (mkMembersFrom i ds)
      = ds.map fun d => (d.2, d.1) := by
  induction ds generalizing i with
  | nil => rfl
  | cons d t ih =>
      have h := ih (i + 1)
      unfold structure_helper_visit_types at h ⊢
      simp only [mkMembersFrom, List.map_cons, h]

/-- Pointers trace of the intrusive strategy over the produced records. -/
theorem visit_pointers_mkMembersFrom (i : Nat) (ds : List (CppType × String)) :
    structure_helper_visit_pointers (mkMembersFrom i ds)
      = (List.enumFrom i ds).map fun p => (p.2.2, p.1) := by
  induction ds generalizing i with
  | nil => rfl
  | cons d t ih =>
      have h := ih (i + 1)
      unfold structure_helper_visit_pointers at h ⊢
      simp only [mkMembersFrom, List.enumFrom, List.map_cons, h]

/-- Accessors trace of the intrusive strategy over the produced records. -/
theorem visit_accessors_mkMembersFrom (i : Nat) (ds : List (CppType × String)) :
    structure_helper_visit_accessors (mkMembersFrom i ds)
      = (List.enumFrom i ds).map fun p => (p.2.2, p.1) := by
  induction ds generalizing i with
  | nil => rfl
  | cons d t ih =>
      have h := ih (i + 1)
      unfold structure_helper_visit_accessors at h ⊢
      simp only [mkMembersFrom, List.enumFrom, List.map_cons, h]

/-- Names of the intrusive pointer and accessor traces. -/
theorem enum_name_trace (ds : List (CppType × String)) (i : Nat) :
    ((List.enumFrom i ds).map fun p => (p.2.2, p.1)).map Prod.fst
      = ds.map Prod.snd := by
  induction ds generalizing i with
  | nil => rfl
  | cons d t ih => simp [List.enumFrom, ih]

/-- Names of any index-paired trace over an adapted sequence. -/
theorem enum_pair_map_fst {γ : Type} (l : List (String × CppType)) (i : Nat)
    (g : Nat × (String × CppType) → γ) :
    ((List.enumFrom i l).map fun p => (p.2.1, g p)).map Prod.fst
      = l.map Prod.fst := by
  induction l generalizing i with
  | nil => rfl
  | cons b t ih => simp [List.enumFrom, ih]

/-- Reading the storage slot just written. -/
theorem get_set_self {α : Type} (l : List α) (j : Nat) (u : α)
    (h : j < l.length) : (l.set j u).get? j = some u := by
  induction l generalizing j with
  | nil => simp at h
  | cons a t ih =>
      cases j with
      | zero => rfl
      | succ j =>
          have : j < t.length := by simpa using h
          simpa using ih j this

/-- Mutation through the storage a mutable field reference designates is
visible through a read of that member. -/
theorem getVal_setVal_self {α : Type} (s : Instance α) (j : Nat) (u : α)
    (h : j < s.vals.length) : getVal (setVal s j u) j = some u :=
  get_set_self s.vals j u h

/-- The bound underlying a successful storage read. -/
theorem lt_of_getVal_eq_some {α : Type} (s : Instance α) (j : Nat) (v : α)
    (h : getVal s j = some v) : j < s.vals.length := by
  unfold getVal at h
  by_contra hge
  rw [List.get?_eq_none.mpr (by omega)] at h
  exact Option.noConfusion h

/-- A name that is no member of a struct resolves to nothing; in particular
the empty token resolves to nothing in a struct whose member names are
identifiers. -/
theorem memberIdx_empty_token (S : StructType) (h : wellFormedNames S) :
    memberIdx S "" = none := by
  unfold memberIdx
  rw [List.findIdx?_eq_none_iff]
  intro p hp
  have hp1 := h p hp
  simp [hp1]

/-- The inference of accessor_value_type recovers the declared member type on
every supported member type. -/
theorem accessor_value_type_valid (m : CppType) (h : validMemberType m) :
    accessor_value_type m = m := by
  cases m with
  | base b => simp [accessor_value_type, accessorResult, removeReference]
  | const t =>
      cases t with
      | base b => simp [accessor_value_type, accessorResult, removeReference]
      | const t2 => simp [validMemberType] at h
      | lref t2 => simp [validMemberType] at h
      | rref t2 => simp [validMemberType] at h
  | lref t =>
      cases t with
      | base b => simp [accessor_value_type, accessorResult]
      | const t2 =>
          cases t2 with
          | base b => simp [accessor_value_type, accessorResult]
          | const t3 => simp [validMemberType] at h
          | lref t3 => simp [validMemberType] at h
          | rref t3 => simp [validMemberType] at h
      | lref t2 => simp [validMemberType] at h
      | rref t2 => simp [validMemberType] at h
  | rref t => simp [validMemberType] at h

/-- The two probes of accessor_value_type coincide exactly on the
reference-typed members. -/
theorem accessorResult_probes_iff (m : CppType) (h : validMemberType m) :
    (accessorResult m .mlval = accessorResult m .rval ↔ ∃ t, m = .lref t) := by
  cases m with
  | base b => simp [accessorResult]
  | const t =>
      cases t with
      | base b => simp [accessorResult]
      | const t2 => simp [validMemberType] at h
      | lref t2 => simp [validMemberType] at h
      | rref t2 => simp [validMemberType] at h
  | lref t =>
      cases t with
      | base b => simp [accessorResult]
      | const t2 =>
          cases t2 with
          | base b => simp [accessorResult]
          | const t3 => simp [validMemberType] at h
          | lref t3 => simp [validMemberType] at h
          | rref t3 => simp [validMemberType] at h
      | lref t2 => simp [validMemberType] at h
      | rref t2 => simp [validMemberType] at h
  | rref t => simp [validMemberType] at h

/-- On the hana-inferred types trace: for sequences of supported member
types, the inferred tags are the declared types. -/
theorem hanaVisitTypes_valid (S : StructType)
    (h : ∀ p ∈ S.members, validMemberType p.2) :
    hanaVisitTypes S = S.members := by
  unfold hanaVisitTypes
  have : ∀ p ∈ S.members,
      (fun p : String × CppType => (p.1, accessor_value_type p.2)) p = p := by
    intro p hp
    have hv := accessor_value_type_valid p.2 (h p hp)
    simp [hv]
  calc S.members.map (fun p => (p.1, accessor_value_type p.2))
      = S.members.map id := List.map_congr_left this
    _ = S.members := List.map_id S.members

/-- The registered list of a bounded intrusive run is the declaration list. -/
theorem endVisitables_runDecls (nm : String) (ds : List (CppType × String))
    (st : IntrusiveState)
    (hbound : ds.length ≤ max_visitable_members_intrusive)
    (hrun : runDecls (beginVisitables nm) ds = some st) :
    endVisitables st = mkMembers ds := by
  have hnd := nodup_of_runDecls nm ds st hrun
  have h2 := runDecls_expected nm ds (by omega) hnd
  rw [hrun] at h2
  have hst : st = ⟨nm, ds.length, ds.map Prod.snd,
      expectedOverloads (mkMembers ds)⟩ :=
    Option.some.inj h2
  rw [hst]
  exact endVisitables_expected nm ds.length (ds.map Prod.snd) (mkMembers ds)
    (by rw [show (mkMembers ds).length = ds.length from length_mkMembersFrom 0 ds]
        exact hbound)

/-- C7, counterexample: at the member type const int, the procedure the claim
describes - probing a mutable and a const container - finds two identical
probe results and returns the reference type const int Rlev, while the source
accessor_value_type, probing a mutable lvalue and an rvalue container, finds
differing probes and returns const int; the two procedures disagree, so the
claim misdescribes the source. -/
theorem C7_counterexample :
    accessor_value_type_specModel (.const (.base "int"))
        = .lref (.const (.base "int"))
    ∧ accessor_value_type (.const (.base "int")) = .const (.base "int")
    ∧ accessor_value_type_specModel (.const (.base "int"))
        ≠ accessor_value_type (.const (.base "int")) := by
  refine ⟨rfl, rfl, ?_⟩
  decide

/-- C7, amended: the two probes of the per-field type inference are invoking
the accessor on a mutable lvalue container and on an rvalue container; the
probes agree exactly for reference-typed members, in which case the common
result is the declared type; otherwise the declared type is the
mutable-lvalue probe with its reference removed; on every supported member
type the inference returns exactly the declared member type. -/
theorem C7_two_probe_inference (m : CppType) (h : validMemberType m) :
    accessor_value_type m = m
    ∧ (accessorResult m .mlval = accessorResult m .rval ↔ ∃ t, m = .lref t) :=
  ⟨accessor_value_type_valid m h, accessorResult_probes_iff m h⟩

/-- C7, witness at the const int member. -/
theorem C7_two_probe_inference_witness :
    validMemberType (CppType.const (.base "int"))
    ∧ (accessor_value_type (CppType.const (.base "int"))
          = CppType.const (.base "int")
       ∧ (accessorResult (CppType.const (.base "int")) .mlval
            = accessorResult (CppType.const (.base "int")) .rval
          ↔ ∃ t, CppType.const (.base "int") = .lref t)) :=
  ⟨by simp [validMemberType],
   C7_two_probe_inference (CppType.const (.base "int")) (by simp [validMemberType])⟩

/-- C9, counterexample: the preprocessor MAP recursion emits its helper call
before testing for the end marker, so an empty registration still emits one
member helper invocation, on the empty token; that invocation resolves no
member of the empty struct, so the expansion is ill-formed rather than a
well-formed visitation of zero fields. -/
theorem C9_counterexample :
    ppExpandedNames [] = [""]
    ∧ externalApply emptyStruct [] Qual.mlval emptyInst = none
    ∧ externalApply emptyStruct [] Qual.mlval emptyInst ≠ some [] := by
  refine ⟨rfl, rfl, ?_⟩
  decide

/-- C9, amended: the external registration strategy does not support a
structure with zero fields in this snapshot: a registration statement with an
empty field-name list expands to exactly one member-helper invocation on the
empty token, and since the empty token names no member of any struct whose
members bear C++ identifiers, the expansion is ill-formed; it never performs
a well-formed visitation of zero fields. -/
theorem C9_empty_registration (S : StructType) (q : Qual) (s : Instance Nat)
    (h : wellFormedNames S) :
    ppExpandedNames [] = [""] ∧ externalApply S [] q s = none := by
  refine ⟨rfl, ?_⟩
  unfold externalApply
  rw [ppExpandedNames_nil]
  have hidx := memberIdx_empty_token S h
  rw [List.mapM_cons, hidx]
  rfl

/-- C9, witness at a well-formed one-member struct. -/
theorem C9_empty_registration_witness :
    wellFormedNames (StructType.mk [("x", .base "int")])
    ∧ (ppExpandedNames [] = [""]
       ∧ externalApply (StructType.mk [("x", .base "int")]) [] Qual.clval
           (Instance.mk [3]) = none) :=
  ⟨by unfold wellFormedNames; decide,
   C9_empty_registration (StructType.mk [("x", .base "int")]) Qual.clval
     (Instance.mk [3]) (by unfold wellFormedNames; decide)⟩

/-- C10: after any successful intrusive registration run, the trait
specialization exposes the no-argument struct-level name query, and it
returns exactly the identifier given to the begin-marker, as captured by its
stringification in BEGIN_VISITABLES. -/
theorem C10_struct_level_get_name (nm : String) (ds : List (CppType × String))
    (st : IntrusiveState)
    (h : runDecls (beginVisitables nm) ds = some st) :
    (intrusiveVisitable (α := Nat) st).struct_name = some nm := by
  have hname := structName_runDecls (beginVisitables nm) st ds h
  simp only [intrusiveVisitable]
  rw [hname]
  rfl

/-- C10, witness: the test::foo registration yields the struct name foo. -/
theorem C10_struct_level_get_name_witness :
    runDecls (beginVisitables "foo") fooDecls = some fooSt
    ∧ (intrusiveVisitable (α := Nat) fooSt).struct_name = some "foo" :=
  ⟨by decide, C10_struct_level_get_name "foo" fooDecls fooSt (by decide)⟩

/-- C4, counterexample: the fusion-adapted test_struct_two is registered -
is_visitable reports true - yet the visit_pointers entry point does not exist
for it: the trait specialization of an adapted type provides no such
operation, so the call has nothing to forward to, refuting that every one of
the listed entry points exists and is callable for every registered type. -/
theorem C4_counterexample :
    is_visitable exEnv "test_struct_two" = true
    ∧ visit_pointers exEnv "test_struct_two" = none
    ∧ ¬ ∃ tp, visit_pointers exEnv "test_struct_two" = some tp := by
  refine ⟨rfl, rfl, ?_⟩
  rintro ⟨tp, htp⟩
  have hcontr : (none : Option (List (String × Nat))) = some tp := htp
  exact Option.noConfusion hcontr

/-- C4, amended: on any registered type the entry points apply_visitor in
both arities, for_each, visit_types, visit_accessors, get, get_name,
get_accessor, type_at and field_count exist and forward to the corresponding
operation of the trait specialization, with is_visitable reporting
registration; the visit_pointers entry point forwards likewise, and the
operation it forwards to exists for the external and intrusive strategies but
not for the adaptation strategies, whose trait specializations provide no
member-pointer visitation. -/
theorem C4_entry_points (env : Env Nat) (t : String) (impl : Visitable Nat)
    (q qa qb : Qual) (s sa sb : Instance Nat) (i : Nat)
    (h : lookupTrait env t = some impl)
    (S2 : StructType) (names2 : List String) (iw2 : String → Nat)
    (hiw2 : ∀ n ∈ names2, memberIdx S2 n = some (iw2 n))
    (st2 : IntrusiveState) (S3 : StructType) :
    is_visitable env t = true
    ∧ apply_visitor env t q s = impl.apply q s
    ∧ for_each env t s q = impl.apply q s
    ∧ apply_visitor2 env t qa sa qb sb = impl.apply2 qa sa qb sb
    ∧ visit_pointers env t = impl.visit_pointers
    ∧ visit_types env t = impl.visit_types
    ∧ visit_accessors env t = impl.visit_accessors
    ∧ get env t i q s = impl.get_value i q s
    ∧ get_name env t i = impl.get_name i
    ∧ get_accessor env t i = impl.get_accessor i
    ∧ type_at env t i = impl.type_at i
    ∧ field_count env t = some impl.field_count
    ∧ (externalVisitable (α := Nat) S2 names2).visit_pointers
        = some (names2.map fun n => (n, iw2 n))
    ∧ ((intrusiveVisitable (α := Nat) st2).visit_pointers).isSome = true
    ∧ (fusionVisitable (α := Nat) S3).visit_pointers = none
    ∧ (hanaVisitable (α := Nat) S3).visit_pointers = none := by
  refine ⟨?_, ?_, ?_, ?_, ?_, ?_, ?_, ?_, ?_, ?_, ?_, ?_, ?_, rfl, rfl, rfl⟩
  all_goals first
    | (simp [is_visitable, apply_visitor, for_each, apply_visitor2,
        visit_pointers, visit_types, visit_accessors, get, get_name,
        get_accessor, type_at, field_count, h])
    | (simp only [externalVisitable]
       exact mapM_option_map _ _ _ fun n hn => by rw [hiw2 n hn]; rfl)

/-- C4, witness at the registered test_struct_one in the example
environment, with availability checked at the concrete registrations of each
strategy. -/
theorem C4_entry_points_witness :
    lookupTrait exEnv "test_struct_one"
        = some (externalVisitable test_struct_one ["a", "b", "c"])
    ∧ (∀ n ∈ (["a", "b", "c"] : List String),
         memberIdx test_struct_one n = some (ts1Index n))
    ∧ (is_visitable exEnv "test_struct_one" = true
       ∧ apply_visitor exEnv "test_struct_one" Qual.mlval ts1
           = (externalVisitable test_struct_one ["a", "b", "c"]).apply Qual.mlval ts1
       ∧ for_each exEnv "test_struct_one" ts1 Qual.mlval
           = (externalVisitable test_struct_one ["a", "b", "c"]).apply Qual.mlval ts1
       ∧ apply_visitor2 exEnv "test_struct_one" Qual.clval ts1 Qual.rval ts1b
           = (externalVisitable test_struct_one ["a", "b", "c"]).apply2
               Qual.clval ts1 Qual.rval ts1b
       ∧ visit_pointers exEnv "test_struct_one"
           = (externalVisitable (α := Nat) test_struct_one ["a", "b", "c"]).visit_pointers
       ∧ visit_types exEnv "test_struct_one"
           = (externalVisitable (α := Nat) test_struct_one ["a", "b", "c"]).visit_types
       ∧ visit_accessors exEnv "test_struct_one"
           = (externalVisitable (α := Nat) test_struct_one ["a", "b", "c"]).visit_accessors
       ∧ get exEnv "test_struct_one" 1 Qual.mlval ts1
           = (externalVisitable test_struct_one ["a", "b", "c"]).get_value 1 Qual.mlval ts1
       ∧ get_name exEnv "test_struct_one" 1
           = (externalVisitable (α := Nat) test_struct_one ["a", "b", "c"]).get_name 1
       ∧ get_accessor exEnv "test_struct_one" 1
           = (externalVisitable (α := Nat) test_struct_one ["a", "b", "c"]).get_accessor 1
       ∧ type_at exEnv "test_struct_one" 1
           = (externalVisitable (α := Nat) test_struct_one ["a", "b", "c"]).type_at 1
       ∧ field_count exEnv "test_struct_one"
           = some (externalVisitable (α := Nat) test_struct_one ["a", "b", "c"]).field_count
       ∧ (externalVisitable (α := Nat) test_struct_one ["a", "b", "c"]).visit_pointers
           = some ((["a", "b", "c"] : List String).map fun n => (n, ts1Index n))
       ∧ ((intrusiveVisitable (α := Nat) fooSt).visit_pointers).isSome = true
       ∧ (fusionVisitable (α := Nat) test_struct_two_fusion).visit_pointers = none
       ∧ (hanaVisitable (α := Nat) test_struct_two_fusion).visit_pointers = none) :=
  ⟨rfl, by decide,
   C4_entry_points exEnv "test_struct_one"
     (externalVisitable test_struct_one ["a", "b", "c"])
     Qual.mlval Qual.clval Qual.rval ts1 ts1 ts1b 1 rfl
     test_struct_one ["a", "b", "c"] ts1Index (by decide)
     fooSt test_struct_two_fusion⟩

/-- C8: calling any visitation or query entry point on a type with no trait
specialization finds no overload, modelled by the undefined result none for
each entry point - never a runtime result - while is_visitable remains
well-formed and evaluates to false on the unregistered type and to true on
any registered one. -/
theorem C8_unregistered_is_rejected (env : Env Nat) (t tr : String)
    (impl : Visitable Nat) (q qa qb : Qual) (s sa sb : Instance Nat) (i : Nat)
    (hnone : lookupTrait env t = none)
    (hsome : lookupTrait env tr = some impl) :
    is_visitable env t = false
    ∧ apply_visitor env t q s = none
    ∧ for_each env t s q = none
    ∧ apply_visitor2 env t qa sa qb sb = none
    ∧ visit_pointers env t = none
    ∧ visit_types env t = none
    ∧ visit_accessors env t = none
    ∧ get env t i q s = none
    ∧ get_name env t i = none
    ∧ get_accessor env t i = none
    ∧ type_at env t i = none
    ∧ field_count env t = none
    ∧ get_struct_name env t = none
    ∧ is_visitable env tr = true := by
  refine ⟨?_, ?_, ?_, ?_, ?_, ?_, ?_, ?_, ?_, ?_, ?_, ?_, ?_, ?_⟩ <;>
    simp [is_visitable, apply_visitor, for_each, apply_visitor2,
      visit_pointers, visit_types, visit_accessors, get, get_name,
      get_accessor, type_at, field_count, get_struct_name, hnone, hsome]

/-- C8, witness: an unregistered name next to the registered
test_struct_one. -/
theorem C8_unregistered_is_rejected_witness :
    lookupTrait exEnv "not_registered" = none
    ∧ lookupTrait exEnv "test_struct_one"
        = some (externalVisitable test_struct_one ["a", "b", "c"])
    ∧ (is_visitable exEnv "not_registered" = false
       ∧ apply_visitor exEnv "not_registered" Qual.mlval ts1 = none
       ∧ for_each exEnv "not_registered" ts1 Qual.mlval = none
       ∧ apply_visitor2 exEnv "not_registered" Qual.clval ts1 Qual.rval ts1b = none
       ∧ visit_pointers exEnv "not_registered" = none
       ∧ visit_types exEnv "not_registered" = none
       ∧ visit_accessors exEnv "not_registered" = none
       ∧ get exEnv "not_registered" 0 Qual.mlval ts1 = none
       ∧ get_name exEnv "not_registered" 0 = none
       ∧ get_accessor exEnv "not_registered" 0 = none
       ∧ type_at exEnv "not_registered" 0 = none
       ∧ field_count exEnv "not_registered" = none
       ∧ get_struct_name exEnv "not_registered" = none
       ∧ is_visitable exEnv "test_struct_one" = true) :=
  ⟨rfl, rfl,
   C8_unregistered_is_rejected exEnv "not_registered" "test_struct_one"
     (externalVisitable test_struct_one ["a", "b", "c"])
     Qual.mlval Qual.clval Qual.rval ts1 ts1 ts1b 0 rfl rfl⟩

/-- C6, counterexample: the trait specializations of the adaptation strategy
do not provide a visit_pointers operation at all - there is no member pointer
to hand out for a type known only through its accessor sequence - so on the
registered fusion-adapted test_struct_two and hana-adapted test_struct_three
the entry point visit_pointers does not exist, refuting that all three
no-instance visitations exist for every registered type. -/
theorem C6_counterexample :
    (fusionVisitable (α := Nat) test_struct_two_fusion).visit_pointers = none
    ∧ (hanaVisitable (α := Nat) test_struct_three).visit_pointers = none
    ∧ ((fusionVisitable (α := Nat) test_struct_two_fusion).visit_pointers).isSome
        = false :=
  ⟨rfl, rfl, rfl⟩

/-- C6, amended: visit_types and visit_accessors exist for every strategy
and produce exactly field_count invocations pairing each registered name, in
order, with the declared-type tag respectively the accessor; visit_pointers
exists for the intrusive strategy - and for the external strategy, whose
modelled specialization pairs each name with its member pointer - but not for
the adaptation strategies, whose specializations provide no such operation;
for hana sequences of supported member types the inferred type tags are
exactly the declared types. -/
theorem C6_no_instance_visitation
    (nm : String) (ds : List (CppType × String)) (st : IntrusiveState)
    (hbound : ds.length ≤ max_visitable_members_intrusive)
    (hrun : runDecls (beginVisitables nm) ds = some st)
    (SA : StructType) (hval : ∀ p ∈ SA.members, validMemberType p.2)
    (S : StructType) (names : List String) (iw : String → Nat)
    (tw : String → CppType)
    (hiw : ∀ n ∈ names, memberIdx S n = some (iw n))
    (htw : ∀ n ∈ names, memberType S (iw n) = some (tw n)) :
    ((intrusiveVisitable (α := Nat) st).visit_pointers
        = some ((List.enumFrom 0 ds).map fun p => (p.2.2, p.1))
     ∧ (intrusiveVisitable (α := Nat) st).visit_types
        = some (ds.map fun d => (d.2, d.1))
     ∧ (intrusiveVisitable (α := Nat) st).visit_accessors
        = some ((List.enumFrom 0 ds).map fun p => (p.2.2, p.1))
     ∧ ((List.enumFrom 0 ds).map fun p => (p.2.2, p.1)).length
        = (intrusiveVisitable (α := Nat) st).field_count
     ∧ (ds.map fun d => (d.2, d.1)).length
        = (intrusiveVisitable (α := Nat) st).field_count)
    ∧ ((externalVisitable (α := Nat) S names).visit_pointers
         = some (names.map fun n => (n, iw n))
       ∧ (externalVisitable (α := Nat) S names).visit_types
         = some (names.map fun n => (n, tw n))
       ∧ (externalVisitable (α := Nat) S names).visit_accessors
         = some (names.map fun n => (n, iw n))
       ∧ (names.map fun n => (n, iw n)).length
         = (externalVisitable (α := Nat) S names).field_count
       ∧ (names.map fun n => (n, tw n)).length
         = (externalVisitable (α := Nat) S names).field_count)
    ∧ ((fusionVisitable (α := Nat) SA).visit_types = some SA.members
       ∧ (hanaVisitable (α := Nat) SA).visit_types = some SA.members
       ∧ (fusionVisitable (α := Nat) SA).visit_accessors
          = some ((List.enumFrom 0 SA.members).map fun p => (p.2.1, p.1))
       ∧ (hanaVisitable (α := Nat) SA).visit_accessors
          = some ((List.enumFrom 0 SA.members).map fun p => (p.2.1, p.1))
       ∧ ((List.enumFrom 0 SA.members).map fun p => (p.2.1, p.1)).length
          = (fusionVisitable (α := Nat) SA).field_count
       ∧ SA.members.length = (hanaVisitable (α := Nat) SA).field_count
       ∧ (fusionVisitable (α := Nat) SA).visit_pointers = none
       ∧ (hanaVisitable (α := Nat) SA).visit_pointers = none) := by
  have hend := endVisitables_runDecls nm ds st hbound hrun
  refine ⟨⟨?_, ?_, ?_, ?_, ?_⟩, ⟨?_, ?_, ?_, ?_, ?_⟩,
    ⟨?_, ?_, ?_, ?_, ?_, ?_, rfl, rfl⟩⟩
  · simp only [intrusiveVisitable, hend]
    exact congrArg some (by
      unfold mkMembers
      exact visit_pointers_mkMembersFrom 0 ds)
  · simp only [intrusiveVisitable, hend]
    exact congrArg some (visit_types_mkMembersFrom 0 ds)
  · simp only [intrusiveVisitable, hend]
    exact congrArg some (visit_accessors_mkMembersFrom 0 ds)
  · simp only [intrusiveVisitable, hend, List.length_map, List.enumFrom_length]
    exact (length_mkMembersFrom 0 ds).symm
  · simp only [intrusiveVisitable, hend, List.length_map]
    exact (length_mkMembersFrom 0 ds).symm
  · simp only [externalVisitable]
    exact mapM_option_map _ _ _ fun n hn => by rw [hiw n hn]; rfl
  · simp only [externalVisitable]
    exact mapM_option_map _ _ _ fun n hn => by simp [hiw n hn, htw n hn]
  · simp only [externalVisitable]
    exact mapM_option_map _ _ _ fun n hn => by rw [hiw n hn]; rfl
  · simp [externalVisitable]
  · simp [externalVisitable]
  · simp only [fusionVisitable]
    exact congrArg some (by unfold fusionVisitTypes; simp)
  · simp only [hanaVisitable]
    exact congrArg some (hanaVisitTypes_valid SA hval)
  · rfl
  · rfl
  · simp [fusionVisitable, List.enumFrom_length]
  · rfl

/-- C6, witness at the concrete registrations of the test suite. -/
theorem C6_no_instance_visitation_witness :
    fooDecls.length ≤ max_visitable_members_intrusive
    ∧ runDecls (beginVisitables "foo") fooDecls = some fooSt
    ∧ (∀ p ∈ test_struct_three.members, validMemberType p.2)
    ∧ (∀ n ∈ (["a", "b", "c"] : List String),
         memberIdx test_struct_one n = some (ts1Index n))
    ∧ (∀ n ∈ (["a", "b", "c"] : List String),
         memberType test_struct_one (ts1Index n) = some (ts1Type n))
    ∧ (((intrusiveVisitable (α := Nat) fooSt).visit_pointers
          = some ((List.enumFrom 0 fooDecls).map fun p => (p.2.2, p.1))
        ∧ (intrusiveVisitable (α := Nat) fooSt).visit_types
          = some (fooDecls.map fun d => (d.2, d.1))
        ∧ (intrusiveVisitable (α := Nat) fooSt).visit_accessors
          = some ((List.enumFrom 0 fooDecls).map fun p => (p.2.2, p.1))
        ∧ ((List.enumFrom 0 fooDecls).map fun p => (p.2.2, p.1)).length
          = (intrusiveVisitable (α := Nat) fooSt).field_count
        ∧ (fooDecls.map fun d => (d.2, d.1)).length
          = (intrusiveVisitable (α := Nat) fooSt).field_count)
       ∧ ((externalVisitable (α := Nat) test_struct_one ["a", "b", "c"]).visit_pointers
            = some ((["a", "b", "c"] : List String).map fun n => (n, ts1Index n))
          ∧ (externalVisitable (α := Nat) test_struct_one ["a", "b", "c"]).visit_types
            = some ((["a", "b", "c"] : List String).map fun n => (n, ts1Type n))
          ∧ (externalVisitable (α := Nat) test_struct_one ["a", "b", "c"]).visit_accessors
            = some ((["a", "b", "c"] : List String).map fun n => (n, ts1Index n))
          ∧ ((["a", "b", "c"] : List String).map fun n => (n, ts1Index n)).length
            = (externalVisitable (α := Nat) test_struct_one ["a", "b", "c"]).field_count
          ∧ ((["a", "b", "c"] : List String).map fun n => (n, ts1Type n)).length
            = (externalVisitable (α := Nat) test_struct_one ["a", "b", "c"]).field_count)
       ∧ ((fusionVisitable (α := Nat) test_struct_three).visit_types
            = some test_struct_three.members
          ∧ (hanaVisitable (α := Nat) test_struct_three).visit_types
            = some test_struct_three.members
          ∧ (fusionVisitable (α := Nat) test_struct_three).visit_accessors
            = some ((List.enumFrom 0 test_struct_three.members).map fun p => (p.2.1, p.1))
          ∧ (hanaVisitable (α := Nat) test_struct_three).visit_accessors
            = some ((List.enumFrom 0 test_struct_three.members).map fun p => (p.2.1, p.1))
          ∧ ((List.enumFrom 0 test_struct_three.members).map fun p => (p.2.1, p.1)).length
            = (fusionVisitable (α := Nat) test_struct_three).field_count
          ∧ test_struct_three.members.length
            = (hanaVisitable (α := Nat) test_struct_three).field_count
          ∧ (fusionVisitable (α := Nat) test_struct_three).visit_pointers = none
          ∧ (hanaVisitable (α := Nat) test_struct_three).visit_pointers = none)) :=
  ⟨by decide, by decide, by decide, by decide, by decide,
   C6_no_instance_visitation "foo" fooDecls fooSt (by decide) (by decide)
     test_struct_three (by decide) test_struct_one ["a", "b", "c"] ts1Index
     ts1Type (by decide) (by decide)⟩

/-- C1: under each registration strategy, visitation traverses the fields in
exactly the registration order - the macro-argument order for the external
strategy, the VISITABLE declaration order for the intrusive strategy, the
adapted sequence order for the adaptation strategies - so a visitor that
records the names it receives observes exactly the declared order, for
instance visitation as well as for every no-instance visitation. -/
theorem C1_registration_order
    (S : StructType) (names : List String) (q : Qual) (s : Instance Nat)
    (iw : String → Nat) (vw : String → Nat)
    (hne : names ≠ [])
    (hiw : ∀ n ∈ names, memberIdx S n = some (iw n))
    (hvw : ∀ n ∈ names, getVal s (iw n) = some (vw n))
    (nm : String) (ds : List (CppType × String)) (st : IntrusiveState)
    (hbound : ds.length ≤ max_visitable_members_intrusive)
    (hrun : runDecls (beginVisitables nm) ds = some st)
    (q2 : Qual) (s2 : Instance Nat) (w2 : Member → Nat)
    (hw2 : ∀ m ∈ endVisitables st, getVal s2 m.ptrIdx = some (w2 m))
    (SA : StructType) (q3 : Qual) (s3 : Instance Nat) (w3 : Nat → Nat)
    (hw3 : ∀ i ∈ List.range SA.members.length, getVal s3 i = some (w3 i)) :
    (∃ tr, externalApply S names q s = some tr ∧ tr.map Prod.fst = names)
    ∧ endVisitables st = mkMembers ds
    ∧ (∃ tr, structure_helper_apply (endVisitables st) q2 s2 = some tr
         ∧ tr.map Prod.fst = ds.map Prod.snd)
    ∧ (structure_helper_visit_types (endVisitables st)).map Prod.fst
        = ds.map Prod.snd
    ∧ (structure_helper_visit_pointers (endVisitables st)).map Prod.fst
        = ds.map Prod.snd
    ∧ (structure_helper_visit_accessors (endVisitables st)).map Prod.fst
        = ds.map Prod.snd
    ∧ (∃ tr, adaptedApply SA q3 s3 = some tr
         ∧ tr.map Prod.fst = SA.members.map Prod.fst)
    ∧ (fusionVisitTypes SA).map Prod.fst = SA.members.map Prod.fst
    ∧ (hanaVisitTypes SA).map Prod.fst = SA.members.map Prod.fst
    ∧ (adaptedVisitAccessors SA).map Prod.fst = SA.members.map Prod.fst := by
  have hend := endVisitables_runDecls nm ds st hbound hrun
  refine ⟨?_, hend, ?_, ?_, ?_, ?_, ?_, ?_, ?_, ?_⟩
  · refine ⟨_, externalApply_eq S names q s iw vw hne hiw hvw, ?_⟩
    rw [List.map_map]
    have hcomp : (Prod.fst ∘ fun n : String => (n, qualRef q (iw n) (vw n)))
        = id := rfl
    rw [hcomp, List.map_id]
  · refine ⟨_, structure_helper_apply_eq (endVisitables st) q2 s2 w2 hw2, ?_⟩
    rw [hend, List.map_map]
    have hcomp : (Prod.fst ∘ fun m : Member =>
        (m.member_name, qualRef q2 m.ptrIdx (w2 m))) = Member.member_name := rfl
    rw [hcomp]
    exact map_name_mkMembersFrom 0 ds
  · rw [hend]
    unfold mkMembers
    rw [visit_types_mkMembersFrom, List.map_map]
    have hcomp : (Prod.fst ∘ fun d : CppType × String => (d.2, d.1))
        = Prod.snd := rfl
    rw [hcomp]
  · rw [hend]
    unfold mkMembers
    rw [visit_pointers_mkMembersFrom]
    exact enum_name_trace ds 0
  · rw [hend]
    unfold mkMembers
    rw [visit_accessors_mkMembersFrom]
    exact enum_name_trace ds 0
  · refine ⟨_, adaptedApply_eq SA q3 s3 w3
      (fun i hi => hw3 i (List.mem_range.mpr hi)), ?_⟩
    exact adapted_trace_names SA _
  · unfold fusionVisitTypes
    rw [List.map_map]
    rfl
  · unfold hanaVisitTypes
    rw [List.map_map]
    rfl
  · unfold adaptedVisitAccessors
    exact enum_pair_map_fst SA.members 0 Prod.fst

/-- C1, witness: the three concrete registrations of the test suite, with a
recording visitor modelled by the traces. -/
theorem C1_registration_order_witness :
    (["a", "b", "c"] : List String) ≠ []
    ∧ (∀ n ∈ (["a", "b", "c"] : List String),
         memberIdx test_struct_one n = some (ts1Index n))
    ∧ (∀ n ∈ (["a", "b", "c"] : List String),
         getVal ts1 (ts1Index n) = some (ts1Value n))
    ∧ fooDecls.length ≤ max_visitable_members_intrusive
    ∧ runDecls (beginVisitables "foo") fooDecls = some fooSt
    ∧ (∀ m ∈ endVisitables fooSt, getVal fooInst m.ptrIdx = some (fooValue m))
    ∧ (∀ i ∈ List.range test_struct_two_fusion.members.length,
         getVal ts2 i = some (4 + i))
    ∧ ((∃ tr, externalApply test_struct_one ["a", "b", "c"] Qual.rval ts1
           = some tr ∧ tr.map Prod.fst = ["a", "b", "c"])
       ∧ endVisitables fooSt = mkMembers fooDecls
       ∧ (∃ tr, structure_helper_apply (endVisitables fooSt) Qual.mlval fooInst
            = some tr ∧ tr.map Prod.fst = fooDecls.map Prod.snd)
       ∧ (structure_helper_visit_types (endVisitables fooSt)).map Prod.fst
           = fooDecls.map Prod.snd
       ∧ (structure_helper_visit_pointers (endVisitables fooSt)).map Prod.fst
           = fooDecls.map Prod.snd
       ∧ (structure_helper_visit_accessors (endVisitables fooSt)).map Prod.fst
           = fooDecls.map Prod.snd
       ∧ (∃ tr, adaptedApply test_struct_two_fusion Qual.clval ts2 = some tr
            ∧ tr.map Prod.fst = test_struct_two_fusion.members.map Prod.fst)
       ∧ (fusionVisitTypes test_struct_two_fusion).map Prod.fst
           = test_struct_two_fusion.members.map Prod.fst
       ∧ (hanaVisitTypes test_struct_two_fusion).map Prod.fst
           = test_struct_two_fusion.members.map Prod.fst
       ∧ (adaptedVisitAccessors test_struct_two_fusion).map Prod.fst
           = test_struct_two_fusion.members.map Prod.fst) :=
  ⟨by decide, by decide, by decide, by decide, by decide, by decide, by decide,
   C1_registration_order test_struct_one ["a", "b", "c"] Qual.rval ts1
     ts1Index ts1Value (by decide) (by decide) (by decide)
     "foo" fooDecls fooSt (by decide) (by decide)
     Qual.mlval fooInst fooValue (by decide)
     test_struct_two_fusion Qual.clval ts2 (fun i => 4 + i) (by decide)⟩

/-- C3: single-instance visitation and indexed access track the instance
qualification in every strategy - a mutable lvalue instance yields a mutable
reference to the very storage of the member, a const lvalue instance yields a
const reference to it, an rvalue instance yields an rvalue reference carrying
the storage position rather than a detached copy - the visitor runs exactly
once per field in registration order under each of the three qualifications,
and mutation through the designated storage is visible through ordinary
member access and conversely. -/
theorem C3_qualified_access
    (S : StructType) (names : List String) (s : Instance Nat)
    (iw : String → Nat) (vw : String → Nat)
    (hne : names ≠ [])
    (hiw : ∀ n ∈ names, memberIdx S n = some (iw n))
    (hvw : ∀ n ∈ names, getVal s (iw n) = some (vw n))
    (ix : Nat) (nx : String) (hix : names.get? ix = some nx) (u : Nat)
    (nm : String) (ds : List (CppType × String)) (st : IntrusiveState)
    (hbound : ds.length ≤ max_visitable_members_intrusive)
    (hrun : runDecls (beginVisitables nm) ds = some st)
    (s2 : Instance Nat) (w2 : Member → Nat)
    (hw2 : ∀ m ∈ endVisitables st, getVal s2 m.ptrIdx = some (w2 m))
    (i2 : Nat) (m2 : Member) (hm2 : (endVisitables st).get? i2 = some m2)
    (u2 : Nat)
    (SA : StructType) (s3 : Instance Nat) (w3 : Nat → Nat)
    (hw3 : ∀ i ∈ List.range SA.members.length, getVal s3 i = some (w3 i))
    (i3 : Nat) (hi3 : i3 < SA.members.length) (u3 : Nat) :
    (externalApply S names Qual.mlval s
        = some (names.map fun n => (n, FieldRef.mutRef (iw n) (vw n)))
     ∧ externalApply S names Qual.clval s
        = some (names.map fun n => (n, FieldRef.constRef (iw n) (vw n)))
     ∧ externalApply S names Qual.rval s
        = some (names.map fun n => (n, FieldRef.rvalRef (iw n) (vw n))))
    ∧ ((externalVisitable S names).get_value ix Qual.mlval s
        = some (FieldRef.mutRef (iw nx) (vw nx))
       ∧ (externalVisitable S names).get_value ix Qual.clval s
        = some (FieldRef.constRef (iw nx) (vw nx))
       ∧ (externalVisitable S names).get_value ix Qual.rval s
        = some (FieldRef.rvalRef (iw nx) (vw nx))
       ∧ getVal (setVal s (iw nx) u) (iw nx) = some u
       ∧ (externalVisitable S names).get_value ix Qual.mlval (setVal s (iw nx) u)
        = some (FieldRef.mutRef (iw nx) u))
    ∧ (structure_helper_apply (endVisitables st) Qual.mlval s2
        = some ((endVisitables st).map fun m =>
            (m.member_name, FieldRef.mutRef m.ptrIdx (w2 m)))
     ∧ structure_helper_apply (endVisitables st) Qual.clval s2
        = some ((endVisitables st).map fun m =>
            (m.member_name, FieldRef.constRef m.ptrIdx (w2 m)))
     ∧ structure_helper_apply (endVisitables st) Qual.rval s2
        = some ((endVisitables st).map fun m =>
            (m.member_name, FieldRef.rvalRef m.ptrIdx (w2 m))))
    ∧ ((intrusiveVisitable st).get_value i2 Qual.mlval s2
        = some (FieldRef.mutRef m2.ptrIdx (w2 m2))
       ∧ (intrusiveVisitable st).get_value i2 Qual.clval s2
        = some (FieldRef.constRef m2.ptrIdx (w2 m2))
       ∧ (intrusiveVisitable st).get_value i2 Qual.rval s2
        = some (FieldRef.rvalRef m2.ptrIdx (w2 m2))
       ∧ getVal (setVal s2 m2.ptrIdx u2) m2.ptrIdx = some u2
       ∧ (intrusiveVisitable st).get_value i2 Qual.mlval (setVal s2 m2.ptrIdx u2)
        = some (FieldRef.mutRef m2.ptrIdx u2))
    ∧ (adaptedApply SA Qual.mlval s3
        = some (SA.members.enum.map fun p => (p.2.1, FieldRef.mutRef p.1 (w3 p.1)))
     ∧ adaptedApply SA Qual.clval s3
        = some (SA.members.enum.map fun p => (p.2.1, FieldRef.constRef p.1 (w3 p.1)))
     ∧ adaptedApply SA Qual.rval s3
        = some (SA.members.enum.map fun p => (p.2.1, FieldRef.rvalRef p.1 (w3 p.1))))
    ∧ ((fusionVisitable SA).get_value i3 Qual.mlval s3
        = some (FieldRef.mutRef i3 (w3 i3))
       ∧ (fusionVisitable SA).get_value i3 Qual.clval s3
        = some (FieldRef.constRef i3 (w3 i3))
       ∧ (fusionVisitable SA).get_value i3 Qual.rval s3
        = some (FieldRef.rvalRef i3 (w3 i3))
       ∧ getVal (setVal s3 i3 u3) i3 = some u3
       ∧ (fusionVisitable SA).get_value i3 Qual.mlval (setVal s3 i3 u3)
        = some (FieldRef.mutRef i3 u3)) := by
  have hnx : nx ∈ names := List.get?_mem hix
  have hix2 : names[ix]? = some nx := by
    rw [← List.get?_eq_getElem?]
    exact hix
  have hw3lt : ∀ i, i < SA.members.length → getVal s3 i = some (w3 i) :=
    fun i hi => hw3 i (List.mem_range.mpr hi)
  have hbx : iw nx < s.vals.length :=
    lt_of_getVal_eq_some s (iw nx) (vw nx) (hvw nx hnx)
  have hm2mem : m2 ∈ endVisitables st := List.get?_mem hm2
  have hm22 : (endVisitables st)[i2]? = some m2 := by
    rw [← List.get?_eq_getElem?]
    exact hm2
  have hb2 : m2.ptrIdx < s2.vals.length :=
    lt_of_getVal_eq_some s2 m2.ptrIdx (w2 m2) (hw2 m2 hm2mem)
  have hb3 : i3 < s3.vals.length :=
    lt_of_getVal_eq_some s3 i3 (w3 i3) (hw3lt i3 hi3)
  refine ⟨⟨?_, ?_, ?_⟩, ⟨?_, ?_, ?_, ?_, ?_⟩, ⟨?_, ?_, ?_⟩,
    ⟨?_, ?_, ?_, ?_, ?_⟩, ⟨?_, ?_, ?_⟩, ⟨?_, ?_, ?_, ?_, ?_⟩⟩
  · exact externalApply_eq S names Qual.mlval s iw vw hne hiw hvw
  · exact externalApply_eq S names Qual.clval s iw vw hne hiw hvw
  · exact externalApply_eq S names Qual.rval s iw vw hne hiw hvw
  · simp [externalVisitable, hix2, hiw nx hnx, hvw nx hnx, qualRef]
  · simp [externalVisitable, hix2, hiw nx hnx, hvw nx hnx, qualRef]
  · simp [externalVisitable, hix2, hiw nx hnx, hvw nx hnx, qualRef]
  · exact getVal_setVal_self s (iw nx) u hbx
  · simp [externalVisitable, hix2, hiw nx hnx, qualRef,
      getVal_setVal_self s (iw nx) u hbx]
  · exact structure_helper_apply_eq (endVisitables st) Qual.mlval s2 w2 hw2
  · exact structure_helper_apply_eq (endVisitables st) Qual.clval s2 w2 hw2
  · exact structure_helper_apply_eq (endVisitables st) Qual.rval s2 w2 hw2
  · simp [intrusiveVisitable, hm22, hw2 m2 hm2mem, qualRef]
  · simp [intrusiveVisitable, hm22, hw2 m2 hm2mem, qualRef]
  · simp [intrusiveVisitable, hm22, hw2 m2 hm2mem, qualRef]
  · exact getVal_setVal_self s2 m2.ptrIdx u2 hb2
  · simp [intrusiveVisitable, hm22, qualRef,
      getVal_setVal_self s2 m2.ptrIdx u2 hb2]
  · exact adaptedApply_eq SA Qual.mlval s3 w3 hw3lt
  · exact adaptedApply_eq SA Qual.clval s3 w3 hw3lt
  · exact adaptedApply_eq SA Qual.rval s3 w3 hw3lt
  · simp [fusionVisitable, hi3, hw3lt i3 hi3, qualRef]
  · simp [fusionVisitable, hi3, hw3lt i3 hi3, qualRef]
  · simp [fusionVisitable, hi3, hw3lt i3 hi3, qualRef]
  · exact getVal_setVal_self s3 i3 u3 hb3
  · simp [fusionVisitable, hi3, qualRef, getVal_setVal_self s3 i3 u3 hb3]

/-- C3, witness at the concrete registrations, with the index 2 field c of
test_struct_one, the index 1 field i of test::foo and the index 0 field d of
the fusion-adapted struct, mutated to 42, 77 and 99. -/
theorem C3_qualified_access_witness :
    (["a", "b", "c"] : List String) ≠ []
    ∧ (∀ n ∈ (["a", "b", "c"] : List String),
         memberIdx test_struct_one n = some (ts1Index n))
    ∧ (∀ n ∈ (["a", "b", "c"] : List String),
         getVal ts1 (ts1Index n) = some (ts1Value n))
    ∧ (["a", "b", "c"] : List String).get? 2 = some "c"
    ∧ runDecls (beginVisitables "foo") fooDecls = some fooSt
    ∧ (∀ m ∈ endVisitables fooSt, getVal fooInst m.ptrIdx = some (fooValue m))
    ∧ (endVisitables fooSt).get? 1 = some ⟨"i", .base "int", 1⟩
    ∧ (∀ i ∈ List.range test_struct_two_fusion.members.length,
         getVal ts2 i = some (4 + i))
    ∧ (0 : Nat) < test_struct_two_fusion.members.length
    ∧ ((externalApply test_struct_one ["a", "b", "c"] Qual.mlval ts1
          = some ((["a", "b", "c"] : List String).map fun n =>
              (n, FieldRef.mutRef (ts1Index n) (ts1Value n)))
        ∧ externalApply test_struct_one ["a", "b", "c"] Qual.clval ts1
          = some ((["a", "b", "c"] : List String).map fun n =>
              (n, FieldRef.constRef (ts1Index n) (ts1Value n)))
        ∧ externalApply test_struct_one ["a", "b", "c"] Qual.rval ts1
          = some ((["a", "b", "c"] : List String).map fun n =>
              (n, FieldRef.rvalRef (ts1Index n) (ts1Value n))))
       ∧ ((externalVisitable test_struct_one ["a", "b", "c"]).get_value 2
            Qual.mlval ts1 = some (FieldRef.mutRef (ts1Index "c") (ts1Value "c"))
          ∧ (externalVisitable test_struct_one ["a", "b", "c"]).get_value 2
            Qual.clval ts1 = some (FieldRef.constRef (ts1Index "c") (ts1Value "c"))
          ∧ (externalVisitable test_struct_one ["a", "b", "c"]).get_value 2
            Qual.rval ts1 = some (FieldRef.rvalRef (ts1Index "c") (ts1Value "c"))
          ∧ getVal (setVal ts1 (ts1Index "c") 42) (ts1Index "c") = some 42
          ∧ (externalVisitable test_struct_one ["a", "b", "c"]).get_value 2
              Qual.mlval (setVal ts1 (ts1Index "c") 42)
            = some (FieldRef.mutRef (ts1Index "c") 42))
       ∧ (structure_helper_apply (endVisitables fooSt) Qual.mlval fooInst
            = some ((endVisitables fooSt).map fun m =>
                (m.member_name, FieldRef.mutRef m.ptrIdx (fooValue m)))
          ∧ structure_helper_apply (endVisitables fooSt) Qual.clval fooInst
            = some ((endVisitables fooSt).map fun m =>
                (m.member_name, FieldRef.constRef m.ptrIdx (fooValue m)))
          ∧ structure_helper_apply (endVisitables fooSt) Qual.rval fooInst
            = some ((endVisitables fooSt).map fun m =>
                (m.member_name, FieldRef.rvalRef m.ptrIdx (fooValue m))))
       ∧ ((intrusiveVisitable fooSt).get_value 1 Qual.mlval fooInst
            = some (FieldRef.mutRef (Member.mk "i" (.base "int") 1).ptrIdx
                (fooValue ⟨"i", .base "int", 1⟩))
          ∧ (intrusiveVisitable fooSt).get_value 1 Qual.clval fooInst
            = some (FieldRef.constRef (Member.mk "i" (.base "int") 1).ptrIdx
                (fooValue ⟨"i", .base "int", 1⟩))
          ∧ (intrusiveVisitable fooSt).get_value 1 Qual.rval fooInst
            = some (FieldRef.rvalRef (Member.mk "i" (.base "int") 1).ptrIdx
                (fooValue ⟨"i", .base "int", 1⟩))
          ∧ getVal (setVal fooInst (Member.mk "i" (.base "int") 1).ptrIdx 77)
              (Member.mk "i" (.base "int") 1).ptrIdx = some 77
          ∧ (intrusiveVisitable fooSt).get_value 1 Qual.mlval
              (setVal fooInst (Member.mk "i" (.base "int") 1).ptrIdx 77)
            = some (FieldRef.mutRef (Member.mk "i" (.base "int") 1).ptrIdx 77))
       ∧ (adaptedApply test_struct_two_fusion Qual.mlval ts2
            = some (test_struct_two_fusion.members.enum.map fun p =>
                (p.2.1, FieldRef.mutRef p.1 (4 + p.1)))
          ∧ adaptedApply test_struct_two_fusion Qual.clval ts2
            = some (test_struct_two_fusion.members.enum.map fun p =>
                (p.2.1, FieldRef.constRef p.1 (4 + p.1)))
          ∧ adaptedApply test_struct_two_fusion Qual.rval ts2
            = some (test_struct_two_fusion.members.enum.map fun p =>
                (p.2.1, FieldRef.rvalRef p.1 (4 + p.1))))
       ∧ ((fusionVisitable test_struct_two_fusion).get_value 0 Qual.mlval ts2
            = some (FieldRef.mutRef 0 (4 + 0))
          ∧ (fusionVisitable test_struct_two_fusion).get_value 0 Qual.clval ts2
            = some (FieldRef.constRef 0 (4 + 0))
          ∧ (fusionVisitable test_struct_two_fusion).get_value 0 Qual.rval ts2
            = some (FieldRef.rvalRef 0 (4 + 0))
          ∧ getVal (setVal ts2 0 99) 0 = some 99
          ∧ (fusionVisitable test_struct_two_fusion).get_value 0 Qual.mlval
              (setVal ts2 0 99) = some (FieldRef.mutRef 0 99))) :=
  ⟨by decide, by decide, by decide, by decide, by decide, by decide, by decide,
   by decide, by decide,
   C3_qualified_access test_struct_one ["a", "b", "c"] ts1 ts1Index ts1Value
     (by decide) (by decide) (by decide) 2 "c" (by decide) 42
     "foo" fooDecls fooSt (by decide) (by decide) fooInst fooValue (by decide)
     1 ⟨"i", .base "int", 1⟩ (by decide) 77
     test_struct_two_fusion ts2 (fun i => 4 + i) (by decide) 0 (by decide) 99⟩

/-- C5: two-instance visitation invokes the visitor exactly once per
registered field, in registration order, passing the field name together with
that field of each instance, the qualification rules applied independently to
the two instances, under each strategy. -/
theorem C5_binary_visitation
    (S : StructType) (names : List String)
    (qa qb : Qual) (sa sb : Instance Nat)
    (iw : String → Nat) (va vb : String → Nat)
    (hne : names ≠ [])
    (hiw : ∀ n ∈ names, memberIdx S n = some (iw n))
    (hva : ∀ n ∈ names, getVal sa (iw n) = some (va n))
    (hvb : ∀ n ∈ names, getVal sb (iw n) = some (vb n))
    (nm : String) (ds : List (CppType × String)) (st : IntrusiveState)
    (hbound : ds.length ≤ max_visitable_members_intrusive)
    (hrun : runDecls (beginVisitables nm) ds = some st)
    (qa2 qb2 : Qual) (sa2 sb2 : Instance Nat) (wa2 wb2 : Member → Nat)
    (hwa2 : ∀ m ∈ endVisitables st, getVal sa2 m.ptrIdx = some (wa2 m))
    (hwb2 : ∀ m ∈ endVisitables st, getVal sb2 m.ptrIdx = some (wb2 m))
    (SA : StructType) (qa3 qb3 : Qual) (sa3 sb3 : Instance Nat)
    (wa3 wb3 : Nat → Nat)
    (hwa3 : ∀ i ∈ List.range SA.members.length, getVal sa3 i = some (wa3 i))
    (hwb3 : ∀ i ∈ List.range SA.members.length, getVal sb3 i = some (wb3 i)) :
    externalApply2 S names qa sa qb sb
      = some (names.map fun n =>
          (n, qualRef qa (iw n) (va n), qualRef qb (iw n) (vb n)))
    ∧ structure_helper_apply2 (endVisitables st) qa2 sa2 qb2 sb2
      = some ((endVisitables st).map fun m =>
          (m.member_name, qualRef qa2 m.ptrIdx (wa2 m),
           qualRef qb2 m.ptrIdx (wb2 m)))
    ∧ ((endVisitables st).map fun m =>
          (m.member_name, qualRef qa2 m.ptrIdx (wa2 m),
           qualRef qb2 m.ptrIdx (wb2 m))).map Prod.fst = ds.map Prod.snd
    ∧ adaptedApply2 SA qa3 sa3 qb3 sb3
      = some (SA.members.enum.map fun p =>
          (p.2.1, qualRef qa3 p.1 (wa3 p.1), qualRef qb3 p.1 (wb3 p.1))) := by
  have hend := endVisitables_runDecls nm ds st hbound hrun
  refine ⟨?_, ?_, ?_, ?_⟩
  · exact externalApply2_eq S names qa sa qb sb iw va vb hne hiw hva hvb
  · exact structure_helper_apply2_eq (endVisitables st) qa2 sa2 qb2 sb2
      wa2 wb2 hwa2 hwb2
  · rw [hend, List.map_map]
    have hcomp : (Prod.fst ∘ fun m : Member =>
        (m.member_name, qualRef qa2 m.ptrIdx (wa2 m),
         qualRef qb2 m.ptrIdx (wb2 m))) = Member.member_name := rfl
    rw [hcomp]
    exact map_name_mkMembersFrom 0 ds
  · exact adaptedApply2_eq SA qa3 sa3 qb3 sb3 wa3 wb3
      (fun i hi => hwa3 i (List.mem_range.mpr hi))
      (fun i hi => hwb3 i (List.mem_range.mpr hi))

/-- C5, witness: const lvalue first instance against rvalue second instance,
at the concrete registrations. -/
theorem C5_binary_visitation_witness :
    (["a", "b", "c"] : List String) ≠ []
    ∧ (∀ n ∈ (["a", "b", "c"] : List String),
         memberIdx test_struct_one n = some (ts1Index n))
    ∧ (∀ n ∈ (["a", "b", "c"] : List String),
         getVal ts1 (ts1Index n) = some (ts1Value n))
    ∧ (∀ n ∈ (["a", "b", "c"] : List String),
         getVal ts1b (ts1Index n) = some (ts1bValue n))
    ∧ runDecls (beginVisitables "foo") fooDecls = some fooSt
    ∧ (∀ m ∈ endVisitables fooSt, getVal fooInst m.ptrIdx = some (fooValue m))
    ∧ (∀ i ∈ List.range test_struct_two_fusion.members.length,
         getVal ts2 i = some (4 + i))
    ∧ (∀ i ∈ List.range test_struct_two_fusion.members.length,
         getVal ts2b i = some (8 + i))
    ∧ (externalApply2 test_struct_one ["a", "b", "c"] Qual.clval ts1
          Qual.rval ts1b
        = some ((["a", "b", "c"] : List String).map fun n =>
            (n, qualRef Qual.clval (ts1Index n) (ts1Value n),
             qualRef Qual.rval (ts1Index n) (ts1bValue n)))
       ∧ structure_helper_apply2 (endVisitables fooSt) Qual.mlval fooInst
           Qual.clval fooInst
         = some ((endVisitables fooSt).map fun m =>
             (m.member_name, qualRef Qual.mlval m.ptrIdx (fooValue m),
              qualRef Qual.clval m.ptrIdx (fooValue m)))
       ∧ ((endVisitables fooSt).map fun m =>
             (m.member_name, qualRef Qual.mlval m.ptrIdx (fooValue m),
              qualRef Qual.clval m.ptrIdx (fooValue m))).map Prod.fst
         = fooDecls.map Prod.snd
       ∧ adaptedApply2 test_struct_two_fusion Qual.rval ts2 Qual.mlval ts2b
         = some (test_struct_two_fusion.members.enum.map fun p =>
             (p.2.1, qualRef Qual.rval p.1 (4 + p.1),
              qualRef Qual.mlval p.1 (8 + p.1)))) :=
  ⟨by decide, by decide, by decide, by decide, by decide, by decide, by decide,
   by decide,
   C5_binary_visitation test_struct_one ["a", "b", "c"] Qual.clval Qual.rval
     ts1 ts1b ts1Index ts1Value ts1bValue (by decide) (by decide) (by decide)
     (by decide) "foo" fooDecls fooSt (by decide) (by decide)
     Qual.mlval Qual.clval fooInst fooInst fooValue fooValue (by decide)
     (by decide) test_struct_two_fusion Qual.rval Qual.mlval ts2 ts2b
     (fun i => 4 + i) (fun i => 8 + i) (by decide) (by decide)⟩

end VisitStruct
